import Mathlib

/-!
# Shallow embedding of the `linda` / `alexbot` control core

Sources embedded here:

* `src/alexbot.h`            : `AlexbotController` (supervisory mode machine, failsafes)
* `src/src/zombie_mode.h`    : `ZombieController` (docking navigator)
* `src/src/arduino_firmware/linda_main/motor_controller.h` : `MotorController`
* `src/src/arduino_firmware/linda_main/stuff.h` : class `Linda` (namespace `LindaMain`)

Conventions of the embedding.

* `double` values are exact rationals (`ℚ`): no rounding, no NaN, no infinities.
* `unsigned long` / `long` are 32 bit wide; `millis()` wraps modulo `2 ^ 32`.
* Readings of the environment (`millis()`, `digitalRead`, the sensor variables that
  `ZombieController::run` reads) are arguments of the embedded function, one argument
  per read, in program order.
* Writes to the environment (`digitalWrite`, `SetTargetVelocity`, `motor`, `Servo::write`,
  `delay`) are fields of the outcome record of the embedded function, or a list of effects.
* `Serial.print` output is not modelled.
* A C++ function that calls itself is embedded with a recursion budget (`fuel`);
  `none` means the budget was exhausted before the function returned.
-/

set_option linter.unusedVariables false

namespace Linda

/-! ## Arduino core -/

/-- Value of `millis()` when the board has been up for `uptime_ms` milliseconds:
an `unsigned long`, so it wraps modulo `2 ^ 32`. -/
def millis (uptime_ms : Nat) : Nat := uptime_ms % 2 ^ 32

/-- Conversion `unsigned long → long` (two's complement, 32 bit), as performed by the
assignment `last_command_timestamp = millis()`. -/
def to_long (u : Nat) : Int :=
  if u % 2 ^ 32 < 2 ^ 31 then ((u % 2 ^ 32 : Nat) : Int) else ((u % 2 ^ 32 : Nat) : Int) - 2 ^ 32

/-- Value of the C expression `a - b` where `a` is `unsigned long` and `b` is `long`:
`b` is converted to `unsigned long` and the difference is taken modulo `2 ^ 32`. -/
def ulong_sub (a : Nat) (b : Int) : Int := ((a : Int) - b) % 2 ^ 32

/-- Arduino `constrain(amt, low, high)`:
`((amt)<(low)?(low):((amt)>(high)?(high):(amt)))`. -/
def constrain (amt low high : ℚ) : ℚ :=
  if amt < low then low else if amt > high then high else amt

/-! ## `src/src/zombie_mode.h` -/

def ZOMBIE_MODE_DISABLED_STATE : Nat := 0
def ZOMBIE_MODE_GPS_STATE : Nat := 1
def ZOMBIE_MODE_POZYX_STATE : Nat := 2
def ZOMBIE_MODE_IR_STATE : Nat := 3
def ZOMBIE_MODE_HOMED_STATE : Nat := 4

def ZOMBIE_MAX_SPEED : ℚ := 0.4
def ZOMBIE_DOCKING_SPEED : ℚ := 0.25

def GPS_DIST_THRESHOLD_MIN : ℚ := 10000
def INFRARED_DIST_THRESHOLD_MAX : ℚ := 3000
def RADAR_DIST_THRESHOLD_MAX : ℚ := GPS_DIST_THRESHOLD_MIN
def RADAR_DIST_THRESHOLD_MIN : ℚ := INFRARED_DIST_THRESHOLD_MAX

/-- The source defines `PI` as the decimal literal `3.14159265`. -/
def PI : ℚ := 3.14159265

/-- The `Velocity` value returned by `ZombieController::run`. -/
structure Velocity where
  linear : ℚ
  angular : ℚ
deriving DecidableEq, Repr

/-- The variables read by `ZombieController::run` that the navigator does not own:
the distance / heading of each positioning source. -/
structure Readings where
  gps_dist_to_target : ℚ
  gps_delta_theta : ℚ
  pozyx_dist_to_target : ℚ
  pozyx_delta_theta : ℚ
  ir_delta_theta : ℚ
deriving DecidableEq, Repr

/-- Private members of `ZombieController`: `current_state_id_` (`uint8_t`) and
`pozyx_ok_`. -/
structure ZombieController where
  current_state_id_ : Nat
  pozyx_ok_ : Bool
deriving DecidableEq, Repr

namespace ZombieController

/-- Source `ZombieController::set_current_state` (zombie_mode.h:230-238):
the body prints, then calls `set_current_state(new_state_id)` (itself) and only after
that call returns does it `return true`. It never assigns the member. -/
def set_current_state : Nat → ZombieController → Nat → Option (Bool × ZombieController)
  | 0, _, _ => none
  | fuel + 1, z, new_state_id =>
    match set_current_state fuel z new_state_id with
    | none => none
    | some (_, z1) => some (true, z1)

/-- Body of `case ZOMBIE_MODE_IR_STATE` (zombie_mode.h:201-218). It is the last case of
the switch, so control leaves the switch after it. -/
def case_IR (z : ZombieController) (r : Readings) (vel : Velocity) :
    Velocity × ZombieController :=
  let vel1 : Velocity :=
    if r.pozyx_delta_theta < PI / 8.0 then
      { vel with linear := constrain (0.1 * r.pozyx_dist_to_target)
                              (-ZOMBIE_DOCKING_SPEED) ZOMBIE_DOCKING_SPEED }
    else
      { vel with linear := 0.0 }
  ({ vel1 with angular := 0.3 * r.ir_delta_theta }, z)

/-- Body of `case ZOMBIE_MODE_POZYX_STATE` (zombie_mode.h:188-199). The case has no
`break`, so control continues into `case ZOMBIE_MODE_IR_STATE`. -/
def case_POZYX (fuel : Nat) (z : ZombieController) (r : Readings) (vel : Velocity) :
    Option (Velocity × ZombieController) :=
  let after_if : Option ZombieController :=
    if r.pozyx_dist_to_target ≤ RADAR_DIST_THRESHOLD_MIN then
      (set_current_state fuel z ZOMBIE_MODE_IR_STATE).map Prod.snd
    else
      some z
  match after_if with
  | none => none
  | some z1 =>
    let vel1 : Velocity :=
      { vel with
        linear := constrain (1.0 * r.pozyx_dist_to_target) (-ZOMBIE_MAX_SPEED) ZOMBIE_MAX_SPEED
        angular := 0.3 * r.pozyx_delta_theta }
    some (case_IR z1 r vel1)

/-- Body of `case ZOMBIE_MODE_GPS_STATE` (zombie_mode.h:172-186). The case has no
`break`, so control continues into `case ZOMBIE_MODE_POZYX_STATE`. -/
def case_GPS (fuel : Nat) (z : ZombieController) (r : Readings) (vel : Velocity) :
    Option (Velocity × ZombieController) :=
  let after_if : Option ZombieController :=
    if r.gps_dist_to_target ≤ GPS_DIST_THRESHOLD_MIN then
      if z.pozyx_ok_ then
        (set_current_state fuel z ZOMBIE_MODE_POZYX_STATE).map Prod.snd
      else
        some z
    else
      some z
  match after_if with
  | none => none
  | some z1 =>
    let vel1 : Velocity :=
      { vel with
        linear := constrain (1.0 * r.gps_dist_to_target) (-ZOMBIE_MAX_SPEED) ZOMBIE_MAX_SPEED
        angular := 0.3 * r.gps_delta_theta }
    case_POZYX fuel z1 r vel1

/-- Source `ZombieController::run` (zombie_mode.h:161-222).
`vel0` is the value of the local `Velocity vel;` right after its declaration (the type
`Velocity` is declared outside the embedded sources). The switch has cases for
DISABLED, GPS, POZYX and IR, none of which ends in `break`, and no `default`. -/
def run (fuel : Nat) (z : ZombieController) (r : Readings) (vel0 : Velocity) :
    Option (Velocity × ZombieController) :=
  if z.current_state_id_ = ZOMBIE_MODE_DISABLED_STATE then
    case_GPS fuel z r { linear := 0.0, angular := 0.0 }
  else if z.current_state_id_ = ZOMBIE_MODE_GPS_STATE then
    case_GPS fuel z r vel0
  else if z.current_state_id_ = ZOMBIE_MODE_POZYX_STATE then
    case_POZYX fuel z r vel0
  else if z.current_state_id_ = ZOMBIE_MODE_IR_STATE then
    some (case_IR z r vel0)
  else
    some (vel0, z)

end ZombieController

/-! ## `src/alexbot.h` -/

def SLEEP_STATE : Int := 0
def HALT_STATE : Int := 1
def BLUETOOTH_TELEOP_STATE : Int := 2
def ZOMBIE_STATE : Int := 3
def SERIAL_COMMAND_STATE : Int := 4

def LEFT_MOTOR_ID : Nat := 0
def RIGHT_MOTOR_ID : Nat := 1

def WATCHDOG_TIMEOUT : Int := 250

/-- One call `motor->SetTargetVelocity(v)` on the drive motor with the given id. -/
structure MotorCommand where
  motor_id : Nat
  target_velocity : ℚ
deriving DecidableEq, Repr

/-- Private members of `AlexbotController` that the embedded functions use:
`int current_state_id`, `long last_command_timestamp`, `ZombieController *zombie_controller`.
The constructor initialises none of the first two. -/
structure AlexbotController where
  current_state_id : Int
  last_command_timestamp : Int
  zombie_controller : ZombieController
deriving DecidableEq, Repr

/-- What a call of `check_failsafes` leaves behind: the returned `safe_to_drive`, the level
written by `digitalWrite(FAILSAFE_LED_PIN, ...)` and the controller. -/
structure FailsafeOutcome where
  returned : Bool
  led_written : Bool
  controller : AlexbotController
deriving DecidableEq, Repr

/-- What a call of `process_velocity_command` leaves behind. `failsafe` is the outcome
of the `check_failsafes()` call it makes (the C++ discards the returned value) and
`motor_commands` are the `SetTargetVelocity` calls it made, in order. -/
structure CommandOutcome where
  failsafe : FailsafeOutcome
  motor_commands : List MotorCommand
  controller : AlexbotController
deriving DecidableEq, Repr

namespace AlexbotController

/-- Source `AlexbotController::set_current_state_ID` (alexbot.h:166-190).
`new_state_id` is a `uint8_t`; the switch has three empty cases. -/
def set_current_state_ID (c : AlexbotController) (new_state_id : Nat) :
    Bool × AlexbotController :=
  let id : Int := ((new_state_id % 256 : Nat) : Int)
  let c1 : AlexbotController :=
    if id = HALT_STATE then c
    else if id = BLUETOOTH_TELEOP_STATE then c
    else if id = SERIAL_COMMAND_STATE then c
    else c
  (true, { c1 with current_state_id := id })

/-- Source `AlexbotController::get_current_state_ID` (alexbot.h:192-196). -/
def get_current_state_ID (c : AlexbotController) : Int := c.current_state_id

/-- Source `AlexbotController::check_failsafes` (alexbot.h:207-236).
`now` is the uptime at the `millis()` read, `failsafe_pin` the `digitalRead(FAILSAFE_PIN)`. -/
def check_failsafes (c : AlexbotController) (now : Nat) (failsafe_pin : Bool) :
    FailsafeOutcome :=
  let watchdog_valid : Bool :=
    decide (ulong_sub (millis now) c.last_command_timestamp < WATCHDOG_TIMEOUT)
  let failsafe_switch_engaged : Bool := failsafe_pin
  let safe_to_drive : Bool := watchdog_valid && failsafe_switch_engaged
  let c1 : AlexbotController :=
    if !safe_to_drive then (set_current_state_ID c HALT_STATE.toNat).2 else c
  { returned := safe_to_drive, led_written := safe_to_drive, controller := c1 }

/-- Source `AlexbotController::process_velocity_command` (alexbot.h:122-164).
`t_entry` is the uptime at the `millis()` read on entry, `t_check` the uptime at the
`millis()` read inside `check_failsafes`. -/
def process_velocity_command (c : AlexbotController) (t_entry t_check : Nat)
    (failsafe_pin : Bool) (cmd_x_velocity cmd_theta : ℚ) : CommandOutcome :=
  let c1 : AlexbotController := { c with last_command_timestamp := to_long (millis t_entry) }
  let f := check_failsafes c1 t_check failsafe_pin
  let c2 := f.controller
  if c2.current_state_id = HALT_STATE then
    { failsafe := f, motor_commands := [], controller := c2 }
  else if c2.current_state_id = BLUETOOTH_TELEOP_STATE then
    let left_vel_desired : ℚ := 0.0
    let right_vel_desired : ℚ := 0.0
    { failsafe := f
      motor_commands := [⟨LEFT_MOTOR_ID, left_vel_desired⟩, ⟨RIGHT_MOTOR_ID, right_vel_desired⟩]
      controller := c2 }
  else
    { failsafe := f, motor_commands := [], controller := c2 }

end AlexbotController

/-! ## Call sequences on the supervisory controller -/

/-- One call made by the main loop on an `AlexbotController`. -/
inductive Call where
  | process (t_entry t_check : Nat) (failsafe_pin : Bool) (cmd_x_velocity cmd_theta : ℚ)
  | set_state (new_state_id : Nat)
deriving DecidableEq, Repr

/-- A controller together with the bookkeeping the invariants speak about:
`last_failsafe` is the value returned by the most recent `check_failsafes` (none before
the first one) and `requested_since` tells whether `set_current_state_ID` has been
called after it. -/
structure Session where
  controller : AlexbotController
  last_failsafe : Option Bool
  requested_since : Bool
deriving DecidableEq, Repr

/-- A session in which no call has been made yet. -/
def Session.fresh (c : AlexbotController) : Session :=
  { controller := c, last_failsafe := none, requested_since := false }

/-- Effect of one call on a session. -/
def Session.step (s : Session) : Call → Session
  | .process t_entry t_check pin x theta =>
    let out := s.controller.process_velocity_command t_entry t_check pin x theta
    { controller := out.controller
      last_failsafe := some out.failsafe.returned
      requested_since := false }
  | .set_state new_state_id =>
    { s with
      controller := (s.controller.set_current_state_ID new_state_id).2
      requested_since := true }

/-- Effect of a sequence of calls, first call first. -/
def Session.run_calls (s : Session) (calls : List Call) : Session :=
  calls.foldl Session.step s

/-! ## Call sequences on the docking navigator -/

/-- What one control cycle feeds to `ZombieController::run`: the ranging availability
flag `pozyx_ok_` as it stands when `run` is called, and the sensor variables. -/
structure Cycle where
  pozyx_ok : Bool
  readings : Readings
deriving DecidableEq, Repr

/-- One call of `run` per cycle, first cycle first. The result lists the navigator after
each call; it is `none` as soon as one call does not return within `fuel`. -/
def ZombieController.run_cycles (fuel : Nat) (vel0 : Velocity) :
    ZombieController → List Cycle → Option (List ZombieController)
  | _, [] => some []
  | z, cy :: rest =>
    match ZombieController.run fuel { z with pozyx_ok_ := cy.pozyx_ok } cy.readings vel0 with
    | none => none
    | some (_, z1) =>
      match ZombieController.run_cycles fuel vel0 z1 rest with
      | none => none
      | some zs => some (z1 :: zs)

/-- The readings at which a call of `run` reaches one of its two
`set_current_state(...)` statements: in the DISABLED and GPS cases the GPS test
(`gps_dist_to_target <= GPS_DIST_THRESHOLD_MIN` with `pozyx_ok_`) or, after falling
through, the POZYX test (`pozyx_dist_to_target <= RADAR_DIST_THRESHOLD_MIN`); in the
POZYX case the POZYX test. -/
def ZombieController.run_requests_phase_change (z : ZombieController) (r : Readings) : Bool :=
  if z.current_state_id_ = ZOMBIE_MODE_DISABLED_STATE ∨ z.current_state_id_ = ZOMBIE_MODE_GPS_STATE then
    (decide (r.gps_dist_to_target ≤ GPS_DIST_THRESHOLD_MIN) && z.pozyx_ok_)
      || decide (r.pozyx_dist_to_target ≤ RADAR_DIST_THRESHOLD_MIN)
  else if z.current_state_id_ = ZOMBIE_MODE_POZYX_STATE then
    decide (r.pozyx_dist_to_target ≤ RADAR_DIST_THRESHOLD_MIN)
  else
    false

/-- The order of the docking phases, GPS < POZYX < IR < HOMED (their ids are 1, 2, 3, 4):
`after` is the same phase as `before` or a later one. -/
def phase_not_earlier (before after : Nat) : Prop :=
  after = before
    ∨ (ZOMBIE_MODE_GPS_STATE ≤ before ∧ before < after ∧ after ≤ ZOMBIE_MODE_HOMED_STATE)

instance (before after : Nat) : Decidable (phase_not_earlier before after) := by
  unfold phase_not_earlier
  infer_instance

/-! ## Concrete controllers used in the evaluations below -/

/-- A navigator as the constructor leaves it: phase DISABLED, ranging not available. -/
def fresh_zombie : ZombieController :=
  { current_state_id_ := ZOMBIE_MODE_DISABLED_STATE, pozyx_ok_ := false }

/-- A controller in HALT_STATE, stamped at uptime 0, on which `set_target` was never
called. -/
def halted_controller : AlexbotController :=
  { current_state_id := HALT_STATE
    last_command_timestamp := to_long (millis 0)
    zombie_controller := fresh_zombie }

/-- A controller in SERIAL_COMMAND_STATE whose last command was stamped at uptime 0. -/
def serial_controller : AlexbotController :=
  { halted_controller with current_state_id := SERIAL_COMMAND_STATE }

/-- A controller in ZOMBIE_STATE whose navigator is in phase IR. -/
def docking_controller : AlexbotController :=
  { halted_controller with
    current_state_id := ZOMBIE_STATE
    zombie_controller := { current_state_id_ := ZOMBIE_MODE_IR_STATE, pozyx_ok_ := true } }

/-- A controller in BLUETOOTH_TELEOP_STATE whose last command was stamped at uptime 0. -/
def teleop_controller : AlexbotController :=
  { halted_controller with current_state_id := BLUETOOTH_TELEOP_STATE }

/-- A navigator in phase GPS without ranging. -/
def gps_zombie : ZombieController :=
  { current_state_id_ := ZOMBIE_MODE_GPS_STATE, pozyx_ok_ := false }

/-- A navigator in phase IR. -/
def ir_zombie : ZombieController :=
  { current_state_id_ := ZOMBIE_MODE_IR_STATE, pozyx_ok_ := true }

/-- A navigator in phase HOMED. -/
def homed_zombie : ZombieController :=
  { current_state_id_ := ZOMBIE_MODE_HOMED_STATE, pozyx_ok_ := true }

/-- Readings far from the dock: GPS distance 12000 mm, ranging distance 5000 mm, ranging
heading error 0 rad, beacon heading error 1 rad. -/
def far_readings : Readings :=
  { gps_dist_to_target := 12000, gps_delta_theta := 0.1
    pozyx_dist_to_target := 5000, pozyx_delta_theta := 0, ir_delta_theta := 1 }

/-- Readings 500 mm from the dock with a heading error of `heading` rad on both the ranging
and the beacon source. -/
def dock_readings (heading : ℚ) : Readings :=
  { gps_dist_to_target := 500, gps_delta_theta := heading
    pozyx_dist_to_target := 500, pozyx_delta_theta := heading, ir_delta_theta := heading }

/-- Readings in phase GPS range of the ranging source: GPS distance 8000 mm, ranging
distance 5000 mm. -/
def near_readings : Readings :=
  { gps_dist_to_target := 8000, gps_delta_theta := 0.1
    pozyx_dist_to_target := 5000, pozyx_delta_theta := 0, ir_delta_theta := 1 }

/-- A navigator in phase GPS with the ranging source available. -/
def gps_zombie_ranging : ZombieController :=
  { current_state_id_ := ZOMBIE_MODE_GPS_STATE, pozyx_ok_ := true }

/-! ## `src/src/zombie_mode.h`, continued: `stop` and `get_poxyx_position` -/

/-- Source `ZombieController::stop` (zombie_mode.h:225-228). Its body is the single call
`set_current_state_id(ZOMBIE_MODE_DISABLED_STATE)`. The sources declare no function of
that name, so the callee is an argument of the embedding. -/
def ZombieController.stop
    (set_current_state_id : ZombieController → Nat → Option (Bool × ZombieController))
    (z : ZombieController) : Option ZombieController :=
  (set_current_state_id z ZOMBIE_MODE_DISABLED_STATE).map Prod.snd

/-- The Pozyx library type `coordinates_t` (three `int32_t` coordinates, in mm). -/
structure coordinates_t where
  x : Int
  y : Int
  z : Int
deriving DecidableEq, Repr

/-- Source `ZombieController::get_poxyx_position` (zombie_mode.h:260-277).
`status` is what `Pozyx.doPositioning` returned and `position` what it stored;
`POZYX_SUCCESS` is the library constant the status is compared with. The assignment
`pozyx_ok_ = true` follows the `if` block unconditionally. -/
def ZombieController.get_poxyx_position (z : ZombieController) (POZYX_SUCCESS status : Int)
    (position : coordinates_t) : coordinates_t × ZombieController :=
  let z1 : ZombieController :=
    if status ≠ POZYX_SUCCESS then { z with pozyx_ok_ := false } else z
  let z2 : ZombieController := { z1 with pozyx_ok_ := true }
  (position, z2)

/-! ## Arduino core, continued -/

/-- Arduino `abs(x)`: `((x)>0?(x):-(x))`. -/
def arduino_abs (x : ℚ) : ℚ := if x > 0 then x else -x

/-- Conversion `int(x)` of a `double`: truncation toward zero (the value is assumed to
fit the `int` type). -/
def to_int (x : ℚ) : Int := if 0 ≤ x then ⌊x⌋ else ⌈x⌉

/-- Arduino `constrain` on `int` operands. -/
def constrain_int (amt low high : Int) : Int :=
  if amt < low then low else if amt > high then high else amt

/-! ## `src/src/arduino_firmware/linda_main/motor_controller.h` -/

/-- Members of `MotorController` that `SetTargetPosition` uses. -/
structure MotorController where
  motor_id : Int
  Kp : ℚ
  Ki : ℚ
  Kd : ℚ
  motor_min_pos : Int
  motor_max_pos : Int
  motor_max_power : Int
deriving DecidableEq, Repr

/-- One call `motor_interface->motor(motor_id, power)` (the power argument is an `int`). -/
structure PowerCommand where
  motor_id : Int
  power : Int
deriving DecidableEq, Repr

/-- What a call of `SetTargetPosition` leaves behind: the value of `target_pos` and of
`output` at the end of the body, and the calls made on the motor interface. -/
structure PositionOutcome where
  target_pos : ℚ
  output : ℚ
  motor_commands : List PowerCommand
deriving DecidableEq, Repr

/-- Source `MotorController::SetTargetPosition` (motor_controller.h:42-78).
`feedback` is the value of `analogRead(feedback_pin)`. -/
def MotorController.SetTargetPosition (m : MotorController) (target_pos : ℚ) (feedback : Int) :
    PositionOutcome :=
  let target_pos1 : ℚ :=
    if target_pos < (m.motor_min_pos : ℚ) then (m.motor_min_pos : ℚ)
    else if target_pos > (m.motor_max_pos : ℚ) then (m.motor_max_pos : ℚ)
    else target_pos
  let current_pos : ℚ := (feedback : ℚ)
  let pTerm : ℚ := current_pos - target_pos1
  let iTerm : ℚ := 0.0
  let dTerm : ℚ := 0.0
  let output0 : ℚ := ((to_int (m.Kp * pTerm + m.Ki * iTerm + m.Kd * dTerm) : Int) : ℚ)
  let output : ℚ :=
    if output0 < ((-1 * m.motor_max_power : Int) : ℚ) then ((-1 * m.motor_max_power : Int) : ℚ)
    else if output0 > (m.motor_max_power : ℚ) then (m.motor_max_power : ℚ)
    else output0
  let cmds : List PowerCommand :=
    if arduino_abs output > 10 then [{ motor_id := m.motor_id, power := to_int output }] else []
  { target_pos := target_pos1, output := output, motor_commands := cmds }

/-- The drive motors of `alexbot.h` are built with `DRIVE_MOTORS_MAX_POWER` as their
`motor_max_power`. -/
def DRIVE_MOTORS_MAX_POWER : Int := 60

/-- A position controller with the default gains, range 100 .. 1023 and the drive motors'
power limit. -/
def sample_motor : MotorController :=
  { motor_id := 1, Kp := 0.5, Ki := 0.0, Kd := 0.0
    motor_min_pos := 100, motor_max_pos := 1023, motor_max_power := DRIVE_MOTORS_MAX_POWER }

/-! ## `src/src/arduino_firmware/linda_main/stuff.h` -/

namespace LindaMain

def HALT_STATE : Int := 0
def COAST_STATE : Int := 1
def IGNITION_STATE : Int := 2
def ENGINE_START_STATE : Int := 3
def RC_TELEOP_STATE : Int := 4
def AI_READY_STATE : Int := 5

def ENGINE_START_RELAY_PIN : Nat := 4
def IGNITION_RELAY_PIN : Nat := 5
def FAILSAFE_LED_PIN : Nat := 13

def AUTOSTART_NUM_START_ATTEMPTS : Nat := 4
def WATCHDOG_TIMEOUT : Int := 250

def BRAKE_SENSITIVITY : ℚ := 2.0
def THROTTLE_SENSITIVITY : ℚ := 2.0
def STEERING_SENSITIVITY : ℚ := 2.0

def PARK_GEAR_POSITION : Int := 100
def REVERSE_GEAR_POSITION : Int := 300
def NEUTRAL_GEAR_POSITION : Int := 500
def DRIVE_GEAR_POSITION : Int := 700

def BRAKE_FULLY_ENGAGED_POSITION : Int := 100
def BRAKE_NOT_ENGAGED_POSITION : Int := 1023
def STEERING_FULL_LEFT : Int := 100
def STEERING_FULL_RIGHT : Int := 1023
def THROTTLE_FULLY_ENGAGED_POSITION : Int := 900
def THROTTLE_NOT_ENGAGED_POSITION : Int := 1023

def RC_STEERING_DEADZONE : ℚ := 25.0
def RC_THROTTLE_DEADZONE : ℚ := 25.0

def RC_DUTY_THRESH_DRIVE : ℚ := 0.3
def RC_DUTY_THRESH_PARK : ℚ := 0.6
def RC_DUTY_THRESH_REVERSE : ℚ := 1.0
def RC_DUTY_THRESH_START_ENGINE : ℚ := 0.075
def RC_DUTY_THRESH_IGNITION : ℚ := 0.065

/-- The three position-controlled actuators of the car. -/
inductive Actuator where
  | brake_motor
  | gear_motor
  | steer_motor
deriving DecidableEq, Repr

/-- What the `Linda` member functions do to the outside, in program order:
`throttle_servo.write`, `motor->SetTargetPosition`, `digitalWrite` and `delay`. -/
inductive Effect where
  | servo_write (value : Int)
  | set_target_position (motor : Actuator) (target_pos : ℚ)
  | digital_write (pin : Nat) (level : Bool)
  | delay (ms : Nat)
deriving DecidableEq, Repr

/-- Private data members of class `Linda`. -/
structure Linda where
  currentStateID : Int
  lastCommandTimestamp : Int
  theta : ℚ
  x_velocity : ℚ
  x_velocity_sensed : ℚ
  current_gear_position : Int
  ai_enabled : Bool
  main_relay_on : Bool
  engine_currently_running : Bool
deriving DecidableEq, Repr

/-- The values of the `read_pwm_value` calls of the RC_TELEOP_STATE branch of
`process_command`, in program order: throttle, steering, ignition, engine start, and the
two reads of the gear switch made by the two `rc_read_gear_pos()` calls. -/
structure RcReads where
  throttle : ℚ
  steering : ℚ
  ignition : ℚ
  engine_start : ℚ
  gear_switch_1 : ℚ
  gear_switch_2 : ℚ
deriving DecidableEq, Repr

/-- What a call of `checkFailsafes` leaves behind. -/
structure FailsafeResult where
  returned : Bool
  state : Linda
  effects : List Effect
deriving DecidableEq, Repr

namespace Linda

/-- Source `Linda::is_engine_running` (stuff.h:200). -/
def is_engine_running (s : Linda) : Bool := s.engine_currently_running

/-- The `for` loop of `Linda::startEngine` (stuff.h:172-190) from iteration `i` on;
`budget` bounds the number of iterations. -/
def startEngine_loop : Nat → Nat → Linda → Linda × List Effect
  | 0, _, s => (s, [])
  | budget + 1, i, s =>
    if i < AUTOSTART_NUM_START_ATTEMPTS then
      let crank : List Effect :=
        [Effect.digital_write ENGINE_START_RELAY_PIN true, Effect.delay (2000 + i * 500),
         Effect.digital_write ENGINE_START_RELAY_PIN false]
      let s1 : Linda := { s with engine_currently_running := true }
      if is_engine_running s1 then (s1, crank)
      else
        let rest := startEngine_loop budget (i + 1) s1
        (rest.1, crank ++ [Effect.delay 2000] ++ rest.2)
    else (s, [])

/-- Source `Linda::startEngine` (stuff.h:172-190): `i` runs from 1 while
`i < AUTOSTART_NUM_START_ATTEMPTS`. -/
def startEngine (s : Linda) : Linda × List Effect :=
  startEngine_loop AUTOSTART_NUM_START_ATTEMPTS 1 s

/-- Source `Linda::stopEngine` (stuff.h:192-198). -/
def stopEngine (s : Linda) : Linda × List Effect :=
  ({ s with engine_currently_running := false }, [Effect.digital_write IGNITION_RELAY_PIN false])

/-- Source `Linda::getcurrentStateID` (stuff.h:445-448). -/
def getcurrentStateID (s : Linda) : Int := s.currentStateID

/-- Source `Linda::calculate_gear_pos` (stuff.h:202-222). -/
def calculate_gear_pos (s : Linda) (x_velocity : ℚ) : Int :=
  if getcurrentStateID s ≥ ENGINE_START_STATE then
    if x_velocity ≥ 0 then DRIVE_GEAR_POSITION else REVERSE_GEAR_POSITION
  else
    PARK_GEAR_POSITION

/-- Source `Linda::rc_read_gear_pos` (stuff.h:224-240); `duty` is the value of
`read_pwm_value(RC_GEAR_SWITCH_PIN)`. -/
def rc_read_gear_pos (duty : ℚ) : Int :=
  if duty < RC_DUTY_THRESH_REVERSE then REVERSE_GEAR_POSITION
  else if duty < RC_DUTY_THRESH_PARK then PARK_GEAR_POSITION
  else DRIVE_GEAR_POSITION

/-- Source `Linda::calculate_throttle_pos` (stuff.h:242-244). -/
def calculate_throttle_pos (x_velocity : ℚ) : ℚ := x_velocity * THROTTLE_SENSITIVITY

/-- Source `Linda::calculate_brake_pos` (stuff.h:246-249):
`(x_velocity == 0.0) * BRAKE_SENSITIVITY`. -/
def calculate_brake_pos (x_velocity : ℚ) : ℚ :=
  (if x_velocity = 0.0 then 1 else 0) * BRAKE_SENSITIVITY

/-- Source `Linda::calculate_steer_pos` (stuff.h:251-253). -/
def calculate_steer_pos (cmd_theta : ℚ) : ℚ := cmd_theta * STEERING_SENSITIVITY

/-- Source `Linda::send_throttle_command` (stuff.h:474-478). -/
def send_throttle_command (throttle_command : Int) : List Effect :=
  [Effect.servo_write (constrain_int throttle_command 0 10)]

/-- Source `Linda::set_current_state_ID` (stuff.h:400-443). The IGNITION_STATE case has no
`break` and continues into the ENGINE_START_STATE case; its two `return` statements leave
the function without assigning `currentStateID`. -/
def set_current_state_ID (s : Linda) (newStateID : Int) : Linda × List Effect :=
  let engine_start_case (s1 : Linda) (e1 : List Effect) : Linda × List Effect :=
    if s1.currentStateID = IGNITION_STATE then
      let r := startEngine s1
      ({ r.1 with currentStateID := newStateID }, e1 ++ r.2)
    else
      ({ s1 with currentStateID := newStateID }, e1)
  if newStateID = IGNITION_STATE then
    if s.currentStateID = HALT_STATE then
      if s.x_velocity ≠ 0.0 then (s, [])
      else if s.ai_enabled then (s, [])
      else
        let s1 : Linda := { s with current_gear_position := PARK_GEAR_POSITION }
        let e1 : List Effect :=
          [Effect.set_target_position Actuator.gear_motor (s1.current_gear_position : ℚ),
           Effect.digital_write IGNITION_RELAY_PIN true]
        engine_start_case { s1 with main_relay_on := true } e1
    else
      engine_start_case s []
  else if newStateID = ENGINE_START_STATE then
    engine_start_case s []
  else
    ({ s with currentStateID := newStateID }, [])

/-- Source `Linda::checkFailsafes` (stuff.h:450-472). `now` is the uptime at the `millis()`
read; `rc_failsafe` and `rc_failsafe_print` are the two `read_pwm_value(RC_FAILSAFE_PIN)`
values (the second one is only printed). The last effect is the write to the LED. -/
def checkFailsafes (s : Linda) (now : Nat) (rc_failsafe rc_failsafe_print : ℚ) :
    FailsafeResult :=
  let watchdogValid : Bool :=
    decide (ulong_sub (millis now) s.lastCommandTimestamp < WATCHDOG_TIMEOUT)
  let rcFailsafeValid : Bool := decide (rc_failsafe ≥ 0.5)
  let safeToDrive : Bool := watchdogValid && rcFailsafeValid
  let r : Linda × List Effect :=
    if !safeToDrive then set_current_state_ID s HALT_STATE else (s, [])
  { returned := safeToDrive
    state := r.1
    effects := r.2 ++ [Effect.digital_write FAILSAFE_LED_PIN safeToDrive] }

/-- The statements shared by the RC_TELEOP_STATE branch after the ignition test
(stuff.h:320-364). -/
def rc_teleop_drive (s : Linda) (rc : RcReads) (e0 : List Effect) : Linda × List Effect :=
  let centre_steer : ℚ := ((STEERING_FULL_LEFT + STEERING_FULL_RIGHT : Int) : ℚ) / 2.0
  let centre_throttle : ℚ :=
    ((THROTTLE_NOT_ENGAGED_POSITION + THROTTLE_FULLY_ENGAGED_POSITION : Int) : ℚ) / 2.0
  let s1 : Linda :=
    if arduino_abs (s.theta - centre_steer) < RC_STEERING_DEADZONE then
      { s with theta := centre_steer } else s
  let s2 : Linda :=
    if arduino_abs (s1.x_velocity - centre_throttle) < RC_THROTTLE_DEADZONE then
      { s1 with x_velocity := centre_throttle } else s1
  let desired_brake_position : ℚ := calculate_brake_pos s2.x_velocity
  let desired_throttle_position : ℚ :=
    if desired_brake_position
        < ((BRAKE_FULLY_ENGAGED_POSITION + BRAKE_NOT_ENGAGED_POSITION : Int) : ℚ) / 3.0 then
      calculate_throttle_pos s2.x_velocity
    else (THROTTLE_NOT_ENGAGED_POSITION : ℚ)
  (s2, e0
    ++ [Effect.set_target_position Actuator.steer_motor (calculate_steer_pos s2.theta),
        Effect.set_target_position Actuator.brake_motor desired_brake_position]
    ++ send_throttle_command (to_int desired_throttle_position)
    ++ [Effect.set_target_position Actuator.gear_motor
          ((rc_read_gear_pos rc.gear_switch_1 : Int) : ℚ)])

/-- Source `Linda::process_command` (stuff.h:255-398). `now` is the uptime at the
`millis()` read on entry. The call `checkFailsafes()` at stuff.h:261 is commented out in
the source, so the body goes from the stamp straight to the `switch`. -/
def process_command (s : Linda) (now : Nat) (rc : RcReads) (cmd_x_velocity cmd_theta : ℚ) :
    Linda × List Effect :=
  let s0 : Linda := { s with lastCommandTimestamp := to_long (millis now) }
  if s0.currentStateID = HALT_STATE then
    let s1 : Linda := { s0 with x_velocity := 0.0, theta := cmd_theta }
    let e1 : List Effect :=
      send_throttle_command (to_int (calculate_throttle_pos s1.x_velocity))
        ++ [Effect.set_target_position Actuator.brake_motor (BRAKE_FULLY_ENGAGED_POSITION : ℚ),
            Effect.set_target_position Actuator.steer_motor (calculate_steer_pos s1.theta)]
    if arduino_abs s1.x_velocity_sensed ≤ 0.1 then
      let r := stopEngine s1
      (r.1, e1 ++ [Effect.set_target_position Actuator.gear_motor (PARK_GEAR_POSITION : ℚ),
                   Effect.delay 1500] ++ r.2)
    else
      (s1, e1)
  else if s0.currentStateID = RC_TELEOP_STATE then
    let s1 : Linda := { s0 with x_velocity := rc.throttle, theta := 0.5 - rc.steering }
    if rc.ignition > RC_DUTY_THRESH_IGNITION then
      let e1 : List Effect := [Effect.digital_write IGNITION_RELAY_PIN true]
      let e2 : List Effect :=
        if rc.engine_start > RC_DUTY_THRESH_START_ENGINE then
          [Effect.digital_write ENGINE_START_RELAY_PIN true]
        else
          [Effect.digital_write ENGINE_START_RELAY_PIN false]
      rc_teleop_drive s1 rc (e1 ++ e2)
    else
      stopEngine s1
  else if s0.currentStateID = IGNITION_STATE then
    (s0, [])
  else if s0.currentStateID = ENGINE_START_STATE then
    (s0, [])
  else if s0.currentStateID = AI_READY_STATE then
    let s1 : Linda := { s0 with x_velocity := cmd_x_velocity, theta := cmd_theta }
    let desired_brake_position : ℚ := calculate_brake_pos s1.x_velocity
    let desired_throttle_position : ℚ :=
      if desired_brake_position
          < ((BRAKE_FULLY_ENGAGED_POSITION + BRAKE_NOT_ENGAGED_POSITION : Int) : ℚ) / 3.0 then
        calculate_throttle_pos s1.x_velocity
      else (THROTTLE_NOT_ENGAGED_POSITION : ℚ)
    let e1 : List Effect :=
      [Effect.set_target_position Actuator.steer_motor (calculate_steer_pos s1.theta),
       Effect.set_target_position Actuator.brake_motor desired_brake_position,
       Effect.servo_write (to_int desired_throttle_position)]
    if arduino_abs s1.x_velocity_sensed ≤ 0.1 then
      (s1, e1 ++ [Effect.set_target_position Actuator.gear_motor
                    ((calculate_gear_pos s1 s1.x_velocity : Int) : ℚ)])
    else
      (s1, e1)
  else
    (s0, [])

end Linda

/-- A car in AI_READY_STATE, moving (sensed speed 1), last command stamped at uptime 0. -/
def driving_car : Linda :=
  { currentStateID := AI_READY_STATE
    lastCommandTimestamp := to_long (millis 0)
    theta := 0, x_velocity := 1, x_velocity_sensed := 1
    current_gear_position := DRIVE_GEAR_POSITION
    ai_enabled := true, main_relay_on := true, engine_currently_running := true }

/-- RC reads with every channel at 0. -/
def quiet_rc : RcReads :=
  { throttle := 0, steering := 0, ignition := 0, engine_start := 0
    gear_switch_1 := 0, gear_switch_2 := 0 }

end LindaMain

/-! ## Lemmas on the machine arithmetic -/

theorem ulong_sub_stamp (t0 t1 : Nat) :
    ulong_sub (millis t1) (to_long (millis t0)) = ((t1 : Int) - (t0 : Int)) % 2 ^ 32 := by
  unfold ulong_sub millis to_long
  split <;> push_cast <;> omega

theorem ulong_sub_elapsed (t0 d : Nat) :
    ulong_sub (millis (t0 + d)) (to_long (millis t0)) = ((d % 2 ^ 32 : Nat) : Int) := by
  rw [ulong_sub_stamp]
  push_cast
  omega

theorem arduino_abs_eq_abs (x : ℚ) : arduino_abs x = |x| := by
  unfold arduino_abs
  split_ifs with h
  · exact (abs_of_pos h).symm
  · exact (abs_of_nonpos (not_lt.mp h)).symm

theorem to_int_intCast (n : Int) : to_int (n : ℚ) = n := by
  unfold to_int
  split_ifs <;> simp

/-! ## Lemmas on `LindaMain.Linda` -/

theorem LindaMain.Linda.stopEngine_state (s : LindaMain.Linda) :
    (LindaMain.Linda.stopEngine s).1.currentStateID = s.currentStateID := rfl

theorem LindaMain.Linda.rc_teleop_drive_state (s : LindaMain.Linda) (rc : LindaMain.RcReads)
    (e0 : List LindaMain.Effect) :
    (LindaMain.Linda.rc_teleop_drive s rc e0).1.currentStateID = s.currentStateID := by
  unfold LindaMain.Linda.rc_teleop_drive
  simp only
  split_ifs <;> rfl

/-! ## Lemmas on `ZombieController` -/

namespace ZombieController

theorem set_current_state_never_returns (fuel : Nat) (z : ZombieController) (new_state_id : Nat) :
    set_current_state fuel z new_state_id = none := by
  induction fuel with
  | zero => rfl
  | succ n ih => simp [set_current_state, ih]

theorem case_POZYX_eq (fuel : Nat) (z : ZombieController) (r : Readings) (vel : Velocity) :
    case_POZYX fuel z r vel
      = if r.pozyx_dist_to_target ≤ RADAR_DIST_THRESHOLD_MIN then none
        else some (case_IR z r
          { vel with
            linear := constrain (1.0 * r.pozyx_dist_to_target) (-ZOMBIE_MAX_SPEED) ZOMBIE_MAX_SPEED
            angular := 0.3 * r.pozyx_delta_theta }) := by
  unfold case_POZYX
  simp only [set_current_state_never_returns, Option.map_none']
  split_ifs <;> rfl

theorem case_GPS_eq (fuel : Nat) (z : ZombieController) (r : Readings) (vel : Velocity) :
    case_GPS fuel z r vel
      = if (r.gps_dist_to_target ≤ GPS_DIST_THRESHOLD_MIN ∧ z.pozyx_ok_ = true)
            ∨ r.pozyx_dist_to_target ≤ RADAR_DIST_THRESHOLD_MIN then none
        else some (case_IR z r
          { linear := constrain (1.0 * r.pozyx_dist_to_target) (-ZOMBIE_MAX_SPEED) ZOMBIE_MAX_SPEED
            angular := 0.3 * r.pozyx_delta_theta }) := by
  unfold case_GPS
  simp only [set_current_state_never_returns, Option.map_none', case_POZYX_eq]
  by_cases h1 : r.gps_dist_to_target ≤ GPS_DIST_THRESHOLD_MIN
  · by_cases h2 : z.pozyx_ok_ = true
    · simp [h1, h2]
    · by_cases h3 : r.pozyx_dist_to_target ≤ RADAR_DIST_THRESHOLD_MIN <;> simp [h1, h2, h3]
  · by_cases h3 : r.pozyx_dist_to_target ≤ RADAR_DIST_THRESHOLD_MIN <;> simp [h1, h3]

theorem case_IR_snd (z : ZombieController) (r : Readings) (vel : Velocity) :
    (case_IR z r vel).2 = z := rfl

theorem case_IR_linear_abs (z : ZombieController) (r : Readings) (vel : Velocity) :
    |(case_IR z r vel).1.linear| ≤ ZOMBIE_DOCKING_SPEED := by
  unfold case_IR constrain ZOMBIE_DOCKING_SPEED
  simp only
  split_ifs <;> simp only [abs_le] <;> constructor <;> norm_num at * <;> linarith

theorem run_none_of_requests (fuel : Nat) (z : ZombieController) (r : Readings) (vel0 : Velocity)
    (h : run_requests_phase_change z r = true) : run fuel z r vel0 = none := by
  unfold run_requests_phase_change at h
  unfold run
  simp only [case_GPS_eq, case_POZYX_eq]
  by_cases h0 : z.current_state_id_ = ZOMBIE_MODE_DISABLED_STATE
  · rw [if_pos (Or.inl h0)] at h
    simp only [Bool.or_eq_true, Bool.and_eq_true, decide_eq_true_eq] at h
    rw [if_pos h0, if_pos h]
  · by_cases h1 : z.current_state_id_ = ZOMBIE_MODE_GPS_STATE
    · rw [if_pos (Or.inr h1)] at h
      simp only [Bool.or_eq_true, Bool.and_eq_true, decide_eq_true_eq] at h
      rw [if_neg h0, if_pos h1, if_pos h]
    · rw [if_neg (not_or.mpr ⟨h0, h1⟩)] at h
      by_cases h2 : z.current_state_id_ = ZOMBIE_MODE_POZYX_STATE
      · rw [if_pos h2] at h
        simp only [decide_eq_true_eq] at h
        rw [if_neg h0, if_neg h1, if_pos h2, if_pos h]
      · rw [if_neg h2] at h
        cases h

theorem run_some_of_not_requests (fuel : Nat) (z : ZombieController) (r : Readings)
    (vel0 : Velocity) (h : run_requests_phase_change z r = false) :
    ∃ v, run fuel z r vel0 = some (v, z)
      ∧ (z.current_state_id_ = ZOMBIE_MODE_DISABLED_STATE ∨ z.current_state_id_ = ZOMBIE_MODE_GPS_STATE
          ∨ z.current_state_id_ = ZOMBIE_MODE_POZYX_STATE ∨ z.current_state_id_ = ZOMBIE_MODE_IR_STATE →
            |v.linear| ≤ ZOMBIE_DOCKING_SPEED) := by
  unfold run_requests_phase_change at h
  unfold run
  simp only [case_GPS_eq, case_POZYX_eq]
  have key : ∀ a b c : Bool, ((a && b) || c) = false → ¬ ((a = true ∧ b = true) ∨ c = true) := by
    decide
  by_cases h0 : z.current_state_id_ = ZOMBIE_MODE_DISABLED_STATE
  · rw [if_pos (Or.inl h0)] at h
    have hn := key _ _ _ h
    simp only [decide_eq_true_eq] at hn
    rw [if_pos h0, if_neg hn]
    exact ⟨(case_IR z r _).1, rfl, fun _ => case_IR_linear_abs _ _ _⟩
  · by_cases h1 : z.current_state_id_ = ZOMBIE_MODE_GPS_STATE
    · rw [if_pos (Or.inr h1)] at h
      have hn := key _ _ _ h
      simp only [decide_eq_true_eq] at hn
      rw [if_neg h0, if_pos h1, if_neg hn]
      exact ⟨(case_IR z r _).1, rfl, fun _ => case_IR_linear_abs _ _ _⟩
    · rw [if_neg (not_or.mpr ⟨h0, h1⟩)] at h
      by_cases h2 : z.current_state_id_ = ZOMBIE_MODE_POZYX_STATE
      · rw [if_pos h2] at h
        simp only [decide_eq_false_iff_not] at h
        rw [if_neg h0, if_neg h1, if_pos h2, if_neg h]
        exact ⟨(case_IR z r _).1, rfl, fun _ => case_IR_linear_abs _ _ _⟩
      · by_cases h3 : z.current_state_id_ = ZOMBIE_MODE_IR_STATE
        · rw [if_neg h0, if_neg h1, if_neg h2, if_pos h3]
          exact ⟨(case_IR z r _).1, rfl, fun _ => case_IR_linear_abs _ _ _⟩
        · rw [if_neg h0, if_neg h1, if_neg h2, if_neg h3]
          refine ⟨_, rfl, fun hh => ?_⟩
          rcases hh with hh | hh | hh | hh
          · exact absurd hh h0
          · exact absurd hh h1
          · exact absurd hh h2
          · exact absurd hh h3

theorem run_cycles_eq (fuel : Nat) (vel0 : Velocity) :
    ∀ (cycles : List Cycle) (z : ZombieController),
      run_cycles fuel vel0 z cycles
        = if (∀ cy ∈ cycles,
                run_requests_phase_change { z with pozyx_ok_ := cy.pozyx_ok } cy.readings = false)
          then some (cycles.map fun cy => { z with pozyx_ok_ := cy.pozyx_ok })
          else none := by
  intro cycles
  induction cycles with
  | nil => intro z; simp [run_cycles]
  | cons cy rest ih =>
    intro z
    unfold run_cycles
    cases hreq : run_requests_phase_change { z with pozyx_ok_ := cy.pozyx_ok } cy.readings with
    | true =>
      rw [run_none_of_requests fuel _ _ vel0 hreq]
      simp [hreq]
    | false =>
      obtain ⟨w, hw, _⟩ := run_some_of_not_requests fuel _ cy.readings vel0 hreq
      rw [hw]
      simp only [ih, List.forall_mem_cons, hreq, true_and, List.map_cons]
      split_ifs <;> rfl

theorem chain_of_same_phase :
    ∀ (l : List ZombieController) (z : ZombieController),
      (∀ s ∈ l, s.current_state_id_ = z.current_state_id_) →
      List.Chain (fun a b => phase_not_earlier a.current_state_id_ b.current_state_id_) z l := by
  intro l
  induction l with
  | nil => intro z _; exact List.Chain.nil
  | cons s rest ih =>
    intro z h
    have hs : s.current_state_id_ = z.current_state_id_ := h s (List.mem_cons_self _ _)
    refine List.Chain.cons (Or.inl hs) (ih s ?_)
    intro t ht
    rw [h t (List.mem_cons_of_mem _ ht), hs]

theorem run_state_unchanged (fuel : Nat) (z : ZombieController) (r : Readings) (vel0 v : Velocity)
    (z1 : ZombieController) (h : run fuel z r vel0 = some (v, z1)) : z1 = z := by
  cases hreq : run_requests_phase_change z r with
  | true => rw [run_none_of_requests fuel z r vel0 hreq] at h; cases h
  | false =>
    obtain ⟨w, hw, _⟩ := run_some_of_not_requests fuel z r vel0 hreq
    rw [hw] at h
    cases h
    rfl

end ZombieController

/-! ## Lemmas on `AlexbotController` -/

namespace AlexbotController

theorem set_current_state_ID_eq (c : AlexbotController) (new_state_id : Nat) :
    set_current_state_ID c new_state_id
      = (true, { c with current_state_id := ((new_state_id % 256 : Nat) : Int) }) := by
  unfold set_current_state_ID
  simp

theorem check_failsafes_returned (c : AlexbotController) (now : Nat) (pin : Bool) :
    (check_failsafes c now pin).returned
      = (decide (ulong_sub (millis now) c.last_command_timestamp < WATCHDOG_TIMEOUT) && pin) := by
  simp [check_failsafes]

theorem check_failsafes_mode (c : AlexbotController) (now : Nat) (pin : Bool) :
    (check_failsafes c now pin).controller.current_state_id
      = if (check_failsafes c now pin).returned = true then c.current_state_id
        else HALT_STATE := by
  unfold check_failsafes
  by_cases h : (decide (ulong_sub (millis now) c.last_command_timestamp < WATCHDOG_TIMEOUT)
      && pin) = true
  · simp [h]
  · simp only [Bool.not_eq_true] at h
    simp [h, set_current_state_ID_eq, HALT_STATE]

theorem check_failsafes_zombie (c : AlexbotController) (now : Nat) (pin : Bool) :
    (check_failsafes c now pin).controller.zombie_controller = c.zombie_controller := by
  unfold check_failsafes
  by_cases h : (decide (ulong_sub (millis now) c.last_command_timestamp < WATCHDOG_TIMEOUT)
      && pin) = true
  · simp [h]
  · simp only [Bool.not_eq_true] at h
    simp [h, set_current_state_ID_eq]

theorem process_velocity_command_controller (c : AlexbotController) (t_entry t_check : Nat)
    (pin : Bool) (x theta : ℚ) :
    (process_velocity_command c t_entry t_check pin x theta).controller
      = (check_failsafes { c with last_command_timestamp := to_long (millis t_entry) }
          t_check pin).controller := by
  unfold process_velocity_command
  simp only
  split_ifs <;> rfl

theorem process_velocity_command_failsafe (c : AlexbotController) (t_entry t_check : Nat)
    (pin : Bool) (x theta : ℚ) :
    (process_velocity_command c t_entry t_check pin x theta).failsafe
      = check_failsafes { c with last_command_timestamp := to_long (millis t_entry) }
          t_check pin := by
  unfold process_velocity_command
  simp only
  split_ifs <;> rfl

theorem process_velocity_command_pin_low (c : AlexbotController) (t_entry t_check : Nat)
    (x theta : ℚ) :
    (process_velocity_command c t_entry t_check false x theta).failsafe.returned = false := by
  rw [process_velocity_command_failsafe, check_failsafes_returned]
  simp

theorem process_velocity_command_mode (c : AlexbotController) (t_entry t_check : Nat)
    (pin : Bool) (x theta : ℚ) :
    (process_velocity_command c t_entry t_check pin x theta).controller.current_state_id
      = if (process_velocity_command c t_entry t_check pin x theta).failsafe.returned = true
        then c.current_state_id else HALT_STATE := by
  rw [process_velocity_command_controller, process_velocity_command_failsafe,
    check_failsafes_mode]

theorem process_velocity_command_commands (c : AlexbotController) (t_entry t_check : Nat)
    (pin : Bool) (x theta : ℚ) :
    ∀ m ∈ (process_velocity_command c t_entry t_check pin x theta).motor_commands,
      m.target_velocity = 0 := by
  unfold process_velocity_command
  simp only
  split_ifs <;> norm_num

end AlexbotController

/-! ## Supervisory controller: failsafes (C1 - C3) -/

open AlexbotController

/-- C1: for every starting controller (any mode, any stored timestamp) and every command,
when the failsafe switch reads disengaged during `process_velocity_command`, the mode
reported by `get_current_state_ID` after the call is HALT_STATE, the failsafe evaluation
returned false, and the call sent no target velocity at all to a drive motor (so in
particular no non-zero one). -/
theorem process_velocity_command_switch_disengaged (c : AlexbotController)
    (t_entry t_check : Nat) (cmd_x_velocity cmd_theta : ℚ) :
    get_current_state_ID
        (process_velocity_command c t_entry t_check false cmd_x_velocity cmd_theta).controller
      = HALT_STATE
    ∧ (process_velocity_command c t_entry t_check false cmd_x_velocity cmd_theta).failsafe.returned
      = false
    ∧ (process_velocity_command c t_entry t_check false cmd_x_velocity cmd_theta).motor_commands
      = []
    ∧ ∀ m ∈ (process_velocity_command c t_entry t_check false cmd_x_velocity
              cmd_theta).motor_commands, m.target_velocity = 0 := by
  have hret := process_velocity_command_pin_low c t_entry t_check cmd_x_velocity cmd_theta
  have hmode : (process_velocity_command c t_entry t_check false cmd_x_velocity
      cmd_theta).controller.current_state_id = HALT_STATE := by
    rw [process_velocity_command_mode, hret]
    simp
  refine ⟨hmode, hret, ?_, process_velocity_command_commands _ _ _ _ _ _⟩
  rw [process_velocity_command_controller] at hmode
  unfold process_velocity_command
  simp only
  rw [if_pos hmode]

/-- C2: for every clock reading `now`, stored `last_command_timestamp` and switch reading,
`check_failsafes` returns true exactly when the value of the C expression
`millis() - last_command_timestamp` is strictly below WATCHDOG_TIMEOUT = 250 and the switch
reads engaged; the level written to the failsafe LED is the returned value; and when the
stamp was taken at uptime `t0` and the check is made `d` ms later, the watchdog part is
`d mod 2^32 < 250`, so an elapsed time of exactly 250 ms fails. -/
theorem check_failsafes_iff (c : AlexbotController) (now : Nat) (failsafe_pin : Bool)
    (t0 d : Nat) :
    ((check_failsafes c now failsafe_pin).returned = true
        ↔ (ulong_sub (millis now) c.last_command_timestamp < WATCHDOG_TIMEOUT
            ∧ failsafe_pin = true))
    ∧ WATCHDOG_TIMEOUT = 250
    ∧ (check_failsafes c now failsafe_pin).led_written
        = (check_failsafes c now failsafe_pin).returned
    ∧ ((check_failsafes { c with last_command_timestamp := to_long (millis t0) } (t0 + d)
          failsafe_pin).returned = true
        ↔ (d % 2 ^ 32 < 250 ∧ failsafe_pin = true))
    ∧ (check_failsafes { c with last_command_timestamp := to_long (millis t0) } (t0 + 250)
          failsafe_pin).returned = false
    ∧ (check_failsafes { c with last_command_timestamp := to_long (millis t0) } (t0 + 249)
          true).returned = true := by
  refine ⟨?_, rfl, rfl, ?_, ?_, ?_⟩
  · rw [check_failsafes_returned]; simp
  · rw [check_failsafes_returned]
    simp only [ulong_sub_elapsed, WATCHDOG_TIMEOUT, Bool.and_eq_true, decide_eq_true_eq]
    constructor
    · rintro ⟨h, hp⟩; exact ⟨by omega, hp⟩
    · rintro ⟨h, hp⟩; exact ⟨by omega, hp⟩
  · rw [check_failsafes_returned]
    simp only [ulong_sub_elapsed, WATCHDOG_TIMEOUT]
    simp
  · rw [check_failsafes_returned]
    simp only [ulong_sub_elapsed, WATCHDOG_TIMEOUT]
    simp

/-- C3, as stated, fails: the previous command was stamped at uptime 0, the call is made at
uptime 300 (300 >= WATCHDOG_TIMEOUT later) with the switch engaged and the mode
SERIAL_COMMAND_STATE, and the mode after the call is still SERIAL_COMMAND_STATE, not
HALT_STATE. -/
theorem stale_command_does_not_halt :
    serial_controller.current_state_id = SERIAL_COMMAND_STATE
    ∧ serial_controller.last_command_timestamp = 0
    ∧ WATCHDOG_TIMEOUT ≤ (300 : Int) - serial_controller.last_command_timestamp
    ∧ get_current_state_ID
        (process_velocity_command serial_controller 300 300 true 0.2 0).controller
      = SERIAL_COMMAND_STATE
    ∧ ¬ get_current_state_ID
        (process_velocity_command serial_controller 300 300 true 0.2 0).controller
      = HALT_STATE := by
  have hmode : get_current_state_ID
        (process_velocity_command serial_controller 300 300 true 0.2 0).controller
      = SERIAL_COMMAND_STATE := by
    rw [get_current_state_ID, process_velocity_command_controller, check_failsafes_mode,
      check_failsafes_returned]
    simp only [ulong_sub_stamp]
    simp [WATCHDOG_TIMEOUT, serial_controller, halted_controller]
  refine ⟨rfl, ?_, ?_, hmode, ?_⟩
  · simp [serial_controller, halted_controller, to_long, millis]
  · simp [serial_controller, halted_controller, to_long, millis, WATCHDOG_TIMEOUT]
  · rw [hmode]; simp [SERIAL_COMMAND_STATE, HALT_STATE]

/-- C3, amended: in a call of `process_velocity_command` with the switch engaged and the mode
SERIAL_COMMAND_STATE, the watchdog is measured from the stamp taken at entry to this very
call, whatever the previous stamp was: the mode after the call is SERIAL_COMMAND_STATE when
the clock read inside `check_failsafes` is less than 250 ms (mod 2^32) after the clock read
at entry and HALT_STATE otherwise; in both cases no target velocity is sent to a motor.
A `check_failsafes` call made on its own, `d` ms after the last stamp with
`d mod 2^32 >= 250`, does leave the mode HALT_STATE. -/
theorem process_velocity_command_serial_watchdog (c : AlexbotController)
    (t_entry t_check : Nat) (cmd_x_velocity cmd_theta : ℚ) (t0 d : Nat)
    (hmode : c.current_state_id = SERIAL_COMMAND_STATE) (hd : 250 ≤ d % 2 ^ 32) :
    get_current_state_ID
        (process_velocity_command c t_entry t_check true cmd_x_velocity cmd_theta).controller
      = (if ((t_check : Int) - (t_entry : Int)) % 2 ^ 32 < 250 then SERIAL_COMMAND_STATE
         else HALT_STATE)
    ∧ (process_velocity_command c t_entry t_check true cmd_x_velocity cmd_theta).motor_commands
      = []
    ∧ get_current_state_ID
        (check_failsafes { c with last_command_timestamp := to_long (millis t0) } (t0 + d)
          true).controller = HALT_STATE := by
  have h1 : (check_failsafes { c with last_command_timestamp := to_long (millis t_entry) }
      t_check true).controller.current_state_id
      = (if ((t_check : Int) - (t_entry : Int)) % 2 ^ 32 < 250 then SERIAL_COMMAND_STATE
         else HALT_STATE) := by
    rw [check_failsafes_mode, check_failsafes_returned]
    simp only [ulong_sub_stamp, WATCHDOG_TIMEOUT, hmode, Bool.and_true, decide_eq_true_eq]
  refine ⟨?_, ?_, ?_⟩
  · rw [get_current_state_ID, process_velocity_command_controller]; exact h1
  · unfold process_velocity_command
    simp only
    rw [h1]
    split_ifs <;> first
      | rfl
      | (exfalso; simp_all [SERIAL_COMMAND_STATE, HALT_STATE, BLUETOOTH_TELEOP_STATE])
  · rw [get_current_state_ID, check_failsafes_mode, check_failsafes_returned]
    simp only [ulong_sub_elapsed, WATCHDOG_TIMEOUT, Bool.and_true, decide_eq_true_eq]
    rw [if_neg (by omega)]

/-- Witness for the amended C3: entry at uptime 300, check at uptime 301; and a check made
on its own 300 ms after a stamp taken at uptime 0. -/
theorem process_velocity_command_serial_watchdog_witness :
    get_current_state_ID
        (process_velocity_command serial_controller 300 301 true 0.2 0).controller
      = (if (((301 : Nat) : Int) - ((300 : Nat) : Int)) % 2 ^ 32 < 250 then SERIAL_COMMAND_STATE
         else HALT_STATE)
    ∧ (process_velocity_command serial_controller 300 301 true 0.2 0).motor_commands = []
    ∧ get_current_state_ID
        (check_failsafes { serial_controller with last_command_timestamp := to_long (millis 0) }
          (0 + 300) true).controller = HALT_STATE :=
  process_velocity_command_serial_watchdog serial_controller 300 301 0.2 0 0 300 rfl
    (by decide)

/-! ## Supervisory controller: mode requests (C4 - C6) -/

/-- C4, as stated, fails: after a `process_velocity_command` whose failsafe evaluation
returned false (switch disengaged) the mode is HALT_STATE, and the following
`set_current_state_ID(BLUETOOTH_TELEOP_STATE)` changes the mode to BLUETOOTH_TELEOP_STATE
although the most recent failsafe evaluation is still the failed one. -/
theorem mode_request_after_failed_failsafe :
    ((Session.fresh halted_controller).run_calls [Call.process 0 0 false 0.2 0]).last_failsafe
      = some false
    ∧ ((Session.fresh halted_controller).run_calls
          [Call.process 0 0 false 0.2 0]).controller.current_state_id = HALT_STATE
    ∧ ((Session.fresh halted_controller).run_calls
          [Call.process 0 0 false 0.2 0, Call.set_state 2]).last_failsafe = some false
    ∧ ((Session.fresh halted_controller).run_calls
          [Call.process 0 0 false 0.2 0, Call.set_state 2]).controller.current_state_id
        = BLUETOOTH_TELEOP_STATE
    ∧ ¬ ((Session.fresh halted_controller).run_calls
          [Call.process 0 0 false 0.2 0, Call.set_state 2]).controller.current_state_id
        = HALT_STATE := by
  have h1 := process_velocity_command_pin_low halted_controller 0 0 0.2 0
  simp only [Session.run_calls, List.foldl, Session.step, Session.fresh,
    set_current_state_ID_eq]
  refine ⟨?_, ?_, ?_, ?_, ?_⟩
  · rw [h1]
  · rw [process_velocity_command_mode, h1]
    simp
  · rw [h1]
  · simp [BLUETOOTH_TELEOP_STATE]
  · simp [HALT_STATE]

/-- C4, amended: over every sequence of `process_velocity_command` and
`set_current_state_ID` calls, whenever the most recent failsafe evaluation returned false
and `set_current_state_ID` has not been called since, the current mode is HALT_STATE.
`set_current_state_ID` itself evaluates no failsafe: it always returns true and sets the
mode to the requested id. -/
theorem failsafe_halt_until_next_request (c : AlexbotController) (calls : List Call)
    (hfail : ((Session.fresh c).run_calls calls).last_failsafe = some false)
    (hreq : ((Session.fresh c).run_calls calls).requested_since = false) :
    get_current_state_ID ((Session.fresh c).run_calls calls).controller = HALT_STATE
    ∧ ∀ (c1 : AlexbotController) (new_state_id : Nat),
        (set_current_state_ID c1 new_state_id).1 = true
        ∧ get_current_state_ID (set_current_state_ID c1 new_state_id).2
            = ((new_state_id % 256 : Nat) : Int) := by
  refine ⟨?_, fun c1 n => by simp [set_current_state_ID_eq, get_current_state_ID]⟩
  induction calls using List.reverseRecOn with
  | nil => simp [Session.run_calls, Session.fresh] at hfail
  | append_singleton init last _ =>
    simp only [Session.run_calls, List.foldl_append, List.foldl_cons, List.foldl_nil]
      at hfail hreq ⊢
    cases last with
    | set_state n => simp [Session.step] at hreq
    | process t_entry t_check pin x theta =>
      simp only [Session.step, Option.some.injEq] at hfail ⊢
      rw [get_current_state_ID, process_velocity_command_mode, hfail]
      simp

/-- Witness for the amended C4: one command processed with the switch disengaged. -/
theorem failsafe_halt_until_next_request_witness :
    get_current_state_ID
        ((Session.fresh serial_controller).run_calls
          [Call.process 10 10 false 0.2 0]).controller = HALT_STATE
    ∧ ∀ (c1 : AlexbotController) (new_state_id : Nat),
        (set_current_state_ID c1 new_state_id).1 = true
        ∧ get_current_state_ID (set_current_state_ID c1 new_state_id).2
            = ((new_state_id % 256 : Nat) : Int) :=
  failsafe_halt_until_next_request serial_controller [Call.process 10 10 false 0.2 0]
    (by
      simp only [Session.run_calls, List.foldl, Session.step, Session.fresh]
      rw [process_velocity_command_pin_low])
    (by simp [Session.run_calls, Session.step])

/-- C5, as stated, fails: on a controller on which no docking target was ever configured,
`set_current_state_ID(ZOMBIE_STATE)` returns true and the mode becomes ZOMBIE_STATE. -/
theorem zombie_request_accepted_without_target :
    (set_current_state_ID halted_controller ZOMBIE_STATE.toNat).1 = true
    ∧ (set_current_state_ID halted_controller ZOMBIE_STATE.toNat).2.current_state_id
        = ZOMBIE_STATE
    ∧ ¬ ((set_current_state_ID halted_controller ZOMBIE_STATE.toNat).1 = false
          ∧ (set_current_state_ID halted_controller ZOMBIE_STATE.toNat).2.current_state_id
              = halted_controller.current_state_id) := by
  simp [set_current_state_ID_eq, ZOMBIE_STATE]

/-- C5, amended: for every current mode, and whether or not a docking target has been
configured (the controller keeps no record of one), `set_current_state_ID(ZOMBIE_STATE)`
returns true and makes ZOMBIE_STATE the current mode, leaving the rest of the controller
as it was. -/
theorem set_current_state_ID_zombie_always_accepted (c : AlexbotController) :
    (set_current_state_ID c ZOMBIE_STATE.toNat).1 = true
    ∧ get_current_state_ID (set_current_state_ID c ZOMBIE_STATE.toNat).2 = ZOMBIE_STATE
    ∧ set_current_state_ID c ZOMBIE_STATE.toNat
        = (true, { c with current_state_id := ZOMBIE_STATE }) := by
  have hid : ((ZOMBIE_STATE.toNat % 256 : Nat) : Int) = ZOMBIE_STATE := by
    simp [ZOMBIE_STATE]
  have heq : set_current_state_ID c ZOMBIE_STATE.toNat
      = (true, { c with current_state_id := ZOMBIE_STATE }) := by
    rw [set_current_state_ID_eq, hid]
  refine ⟨?_, ?_, heq⟩
  · rw [heq]
  · rw [heq, get_current_state_ID]

/-- C6, as stated, fails in both directions: entering ZOMBIE_STATE from HALT_STATE with the
docking phase DISABLED leaves the phase DISABLED (not GPS), and leaving ZOMBIE_STATE for
HALT_STATE with the docking phase IR leaves the phase IR (not DISABLED). -/
theorem mode_change_keeps_docking_phase :
    (set_current_state_ID halted_controller ZOMBIE_STATE.toNat).2.current_state_id = ZOMBIE_STATE
    ∧ (set_current_state_ID halted_controller
          ZOMBIE_STATE.toNat).2.zombie_controller.current_state_id_ = ZOMBIE_MODE_DISABLED_STATE
    ∧ ¬ (set_current_state_ID halted_controller
          ZOMBIE_STATE.toNat).2.zombie_controller.current_state_id_ = ZOMBIE_MODE_GPS_STATE
    ∧ docking_controller.current_state_id = ZOMBIE_STATE
    ∧ (set_current_state_ID docking_controller HALT_STATE.toNat).2.current_state_id = HALT_STATE
    ∧ (set_current_state_ID docking_controller
          HALT_STATE.toNat).2.zombie_controller.current_state_id_ = ZOMBIE_MODE_IR_STATE
    ∧ ¬ (set_current_state_ID docking_controller
          HALT_STATE.toNat).2.zombie_controller.current_state_id_
        = ZOMBIE_MODE_DISABLED_STATE := by
  simp [set_current_state_ID_eq, ZOMBIE_STATE, HALT_STATE, halted_controller,
    docking_controller, fresh_zombie, ZOMBIE_MODE_DISABLED_STATE, ZOMBIE_MODE_GPS_STATE,
    ZOMBIE_MODE_IR_STATE]

/-- C6, amended: a mode change never touches the docking phase. For every controller and
every requested mode, `set_current_state_ID` sets the mode and leaves the navigator (its
phase included) exactly as it was, on entry to ZOMBIE_STATE as well as on exit from it; the
same holds for the forced change to HALT_STATE inside `process_velocity_command`. -/
theorem set_current_state_ID_keeps_docking_phase (c : AlexbotController) (new_state_id : Nat)
    (t_entry t_check : Nat) (failsafe_pin : Bool) (cmd_x_velocity cmd_theta : ℚ) :
    (set_current_state_ID c new_state_id).2.current_state_id = ((new_state_id % 256 : Nat) : Int)
    ∧ (set_current_state_ID c new_state_id).2.zombie_controller = c.zombie_controller
    ∧ (process_velocity_command c t_entry t_check failsafe_pin cmd_x_velocity
          cmd_theta).controller.zombie_controller = c.zombie_controller := by
  refine ⟨by simp [set_current_state_ID_eq], by simp [set_current_state_ID_eq], ?_⟩
  rw [process_velocity_command_controller, check_failsafes_zombie]

/-! ## Docking navigator (C7 - C10) -/

open ZombieController

/-- C7: for every sequence of `run` calls with arbitrary readings and ranging availability,
and every starting phase, the phase after each call that returns is the same as or later
than the phase before it in the order GPS < POZYX < IR < HOMED (it is in fact the same:
the listed navigators differ from the starting one in `pozyx_ok_` only); and the sequence
of calls returns exactly when no cycle reaches a `set_current_state` statement. -/
theorem run_never_moves_to_earlier_phase (fuel : Nat) (vel0 : Velocity) (z : ZombieController)
    (cycles : List Cycle) :
    (∀ states, run_cycles fuel vel0 z cycles = some states →
        states.length = cycles.length
        ∧ List.Chain (fun a b => phase_not_earlier a.current_state_id_ b.current_state_id_)
            z states
        ∧ ∀ s ∈ states, s.current_state_id_ = z.current_state_id_)
    ∧ ((run_cycles fuel vel0 z cycles).isSome = true
        ↔ ∀ cy ∈ cycles,
            run_requests_phase_change { z with pozyx_ok_ := cy.pozyx_ok } cy.readings = false) := by
  rw [run_cycles_eq]
  constructor
  · intro states h
    split_ifs at h with hc
    cases h
    have hsame : ∀ s ∈ cycles.map (fun cy => ({ z with pozyx_ok_ := cy.pozyx_ok } :
        ZombieController)), s.current_state_id_ = z.current_state_id_ := by
      intro s hs
      obtain ⟨cy, _, rfl⟩ := List.mem_map.mp hs
      rfl
    exact ⟨by simp, chain_of_same_phase _ _ hsame, hsame⟩
  · split_ifs with hc
    · exact ⟨fun _ => hc, fun _ => rfl⟩
    · exact ⟨fun h => (by cases h), fun h => absurd h hc⟩

/-- Witness for C7: two cycles in phase GPS, far from the dock, both calls return. -/
theorem run_never_moves_to_earlier_phase_witness :
    run_cycles 0 ⟨0, 0⟩ gps_zombie [⟨false, far_readings⟩, ⟨true, far_readings⟩]
        = some [{ gps_zombie with pozyx_ok_ := false }, { gps_zombie with pozyx_ok_ := true }]
    ∧ ([{ gps_zombie with pozyx_ok_ := false }, { gps_zombie with pozyx_ok_ := true }].length
          = [(⟨false, far_readings⟩ : Cycle), ⟨true, far_readings⟩].length
        ∧ List.Chain (fun a b => phase_not_earlier a.current_state_id_ b.current_state_id_)
            gps_zombie [{ gps_zombie with pozyx_ok_ := false }, { gps_zombie with pozyx_ok_ := true }]
        ∧ ∀ s ∈ [{ gps_zombie with pozyx_ok_ := false }, { gps_zombie with pozyx_ok_ := true }],
            s.current_state_id_ = gps_zombie.current_state_id_) :=
  have h : run_cycles 0 ⟨0, 0⟩ gps_zombie [⟨false, far_readings⟩, ⟨true, far_readings⟩]
        = some [{ gps_zombie with pozyx_ok_ := false }, { gps_zombie with pozyx_ok_ := true }] := by
    rw [run_cycles_eq]
    norm_num [run_requests_phase_change, gps_zombie, far_readings, GPS_DIST_THRESHOLD_MIN,
      RADAR_DIST_THRESHOLD_MIN, INFRARED_DIST_THRESHOLD_MAX, ZOMBIE_MODE_GPS_STATE,
      ZOMBIE_MODE_DISABLED_STATE]
  ⟨h, (run_never_moves_to_earlier_phase 0 ⟨0, 0⟩ gps_zombie
        [⟨false, far_readings⟩, ⟨true, far_readings⟩]).1 _ h⟩

/-- C8 fails on the code at a negative heading error: in phase IR, at distance 500 mm with
heading error -0.5 rad (so |heading error| >= PI/8), `run` returns linear = 0.25, not 0
(the test is `pozyx_delta_theta < PI / 8.0`, without an absolute value). At the claim's own
witness, heading error +0.5 rad, it returns linear 0 and angular 0.15. -/
theorem run_ir_negative_heading_moves_forward (fuel : Nat) (vel0 : Velocity) :
    ir_zombie.current_state_id_ = ZOMBIE_MODE_IR_STATE
    ∧ PI / 8 ≤ |(-0.5 : ℚ)|
    ∧ run fuel ir_zombie (dock_readings (-0.5)) vel0
        = some ({ linear := 0.25, angular := -0.15 }, ir_zombie)
    ∧ run fuel ir_zombie (dock_readings 0.5) vel0
        = some ({ linear := 0, angular := 0.15 }, ir_zombie) := by
  refine ⟨rfl, ?_, ?_, ?_⟩
  · norm_num [PI, abs_le, le_abs]
  · norm_num [run, case_IR, ir_zombie, dock_readings, constrain, PI, ZOMBIE_DOCKING_SPEED,
      ZOMBIE_MODE_IR_STATE, ZOMBIE_MODE_DISABLED_STATE, ZOMBIE_MODE_GPS_STATE,
      ZOMBIE_MODE_POZYX_STATE]
  · norm_num [run, case_IR, ir_zombie, dock_readings, constrain, PI, ZOMBIE_DOCKING_SPEED,
      ZOMBIE_MODE_IR_STATE, ZOMBIE_MODE_DISABLED_STATE, ZOMBIE_MODE_GPS_STATE,
      ZOMBIE_MODE_POZYX_STATE]

/-- C9: for every navigator state, every reading and every initial value of the local
`vel`: when the call reaches no `set_current_state` statement, `run` returns a velocity `v`
with |v.linear| <= ZOMBIE_MAX_SPEED (0.4) in phases GPS and POZYX and
|v.linear| <= ZOMBIE_DOCKING_SPEED (0.25) in phase IR; when it reaches one, `run` returns
no velocity at all; and in phase IR it never reaches one, so there `run` always returns. -/
theorem run_linear_speed_bounded (fuel : Nat) (z : ZombieController) (r : Readings)
    (vel0 : Velocity) :
    (run_requests_phase_change z r = false →
        ∃ v, run fuel z r vel0 = some (v, z)
          ∧ (z.current_state_id_ = ZOMBIE_MODE_GPS_STATE
              ∨ z.current_state_id_ = ZOMBIE_MODE_POZYX_STATE → |v.linear| ≤ ZOMBIE_MAX_SPEED)
          ∧ (z.current_state_id_ = ZOMBIE_MODE_IR_STATE → |v.linear| ≤ ZOMBIE_DOCKING_SPEED))
    ∧ (run_requests_phase_change z r = true → run fuel z r vel0 = none)
    ∧ (z.current_state_id_ = ZOMBIE_MODE_IR_STATE → run_requests_phase_change z r = false)
    ∧ ZOMBIE_MAX_SPEED = 0.4 ∧ ZOMBIE_DOCKING_SPEED = 0.25 := by
  refine ⟨?_, run_none_of_requests fuel z r vel0, ?_, rfl, rfl⟩
  · intro h
    obtain ⟨v, hv, hb⟩ := run_some_of_not_requests fuel z r vel0 h
    refine ⟨v, hv, ?_, ?_⟩
    · intro hp
      have h1 : |v.linear| ≤ ZOMBIE_DOCKING_SPEED := by
        rcases hp with hp | hp
        · exact hb (Or.inr (Or.inl hp))
        · exact hb (Or.inr (Or.inr (Or.inl hp)))
      have h2 : ZOMBIE_DOCKING_SPEED ≤ ZOMBIE_MAX_SPEED := by
        norm_num [ZOMBIE_DOCKING_SPEED, ZOMBIE_MAX_SPEED]
      exact le_trans h1 h2
    · intro hp
      exact hb (Or.inr (Or.inr (Or.inr hp)))
  · intro hp
    simp [run_requests_phase_change, hp, ZOMBIE_MODE_IR_STATE, ZOMBIE_MODE_DISABLED_STATE,
      ZOMBIE_MODE_GPS_STATE, ZOMBIE_MODE_POZYX_STATE]

/-- Witness for C9: phase GPS far from the dock (no phase change is requested). -/
theorem run_linear_speed_bounded_witness :
    run_requests_phase_change gps_zombie far_readings = false
    ∧ ∃ v, run 0 gps_zombie far_readings ⟨7, 7⟩ = some (v, gps_zombie)
        ∧ (gps_zombie.current_state_id_ = ZOMBIE_MODE_GPS_STATE
            ∨ gps_zombie.current_state_id_ = ZOMBIE_MODE_POZYX_STATE →
              |v.linear| ≤ ZOMBIE_MAX_SPEED)
        ∧ (gps_zombie.current_state_id_ = ZOMBIE_MODE_IR_STATE →
              |v.linear| ≤ ZOMBIE_DOCKING_SPEED) :=
  have h : run_requests_phase_change gps_zombie far_readings = false := by
    norm_num [run_requests_phase_change, gps_zombie, far_readings, GPS_DIST_THRESHOLD_MIN,
      RADAR_DIST_THRESHOLD_MIN, INFRARED_DIST_THRESHOLD_MAX, ZOMBIE_MODE_GPS_STATE,
      ZOMBIE_MODE_DISABLED_STATE]
  ⟨h, (run_linear_speed_bounded 0 gps_zombie far_readings ⟨7, 7⟩).1 h⟩

/-- C10 fails on the code: in phase DISABLED, far from the dock (GPS distance 12000 mm,
ranging distance 5000 mm, ranging heading 0, beacon heading 1 rad), `run` returns
linear = 0.25 and angular = 0.3, the output of the IR control law, because the DISABLED
case has no `break` and control falls through the GPS, POZYX and IR cases. In phase HOMED
no case matches and `run` returns the local `vel` as it was declared. -/
theorem run_disabled_falls_through (fuel : Nat) (vel0 : Velocity) (r : Readings) :
    fresh_zombie.current_state_id_ = ZOMBIE_MODE_DISABLED_STATE
    ∧ run fuel fresh_zombie far_readings vel0
        = some ({ linear := 0.25, angular := 0.3 }, fresh_zombie)
    ∧ run fuel homed_zombie r vel0 = some (vel0, homed_zombie) := by
  refine ⟨rfl, ?_, ?_⟩
  · unfold run
    rw [case_GPS_eq]
    norm_num [case_IR, fresh_zombie, far_readings, constrain, PI, ZOMBIE_DOCKING_SPEED,
      ZOMBIE_MODE_DISABLED_STATE, GPS_DIST_THRESHOLD_MIN, RADAR_DIST_THRESHOLD_MIN,
      INFRARED_DIST_THRESHOLD_MAX]
  · simp [run, homed_zombie, ZOMBIE_MODE_HOMED_STATE, ZOMBIE_MODE_IR_STATE,
      ZOMBIE_MODE_DISABLED_STATE, ZOMBIE_MODE_GPS_STATE, ZOMBIE_MODE_POZYX_STATE]

/-! ## Docking navigator, continued (C11 - C13, C16) -/

/-- C11 fails on the code: in phase GPS with satellite distance 12000 mm and satellite heading
error 0.1 rad, `run` returns linear = 0.25 and angular = 0.3, computed by the IR case from
the ranging distance (5000 mm) and the beacon heading (1 rad), not
linear = constrain(1.0 * 12000, -0.4, 0.4) = 0.4 and angular = 0.3 * 0.1 = 0.03: the GPS
case assigns those values but has no `break`, and the cases it falls into overwrite them. -/
theorem run_gps_returns_ir_law (fuel : Nat) (vel0 : Velocity) :
    gps_zombie.current_state_id_ = ZOMBIE_MODE_GPS_STATE
    ∧ run fuel gps_zombie far_readings vel0
        = some ({ linear := 0.25, angular := 0.3 }, gps_zombie)
    ∧ constrain (1.0 * far_readings.gps_dist_to_target) (-ZOMBIE_MAX_SPEED) ZOMBIE_MAX_SPEED = 0.4
    ∧ 0.3 * far_readings.gps_delta_theta = 0.03
    ∧ ¬ (0.25 : ℚ)
        = constrain (1.0 * far_readings.gps_dist_to_target) (-ZOMBIE_MAX_SPEED) ZOMBIE_MAX_SPEED
    ∧ ¬ (0.3 : ℚ) = 0.3 * far_readings.gps_delta_theta := by
  refine ⟨rfl, ?_, ?_, ?_, ?_, ?_⟩
  · unfold run
    rw [if_neg (by decide), if_pos (show gps_zombie.current_state_id_ = ZOMBIE_MODE_GPS_STATE
      from rfl), case_GPS_eq]
    norm_num [case_IR, gps_zombie, far_readings, constrain, PI, ZOMBIE_DOCKING_SPEED,
      GPS_DIST_THRESHOLD_MIN, RADAR_DIST_THRESHOLD_MIN, INFRARED_DIST_THRESHOLD_MAX]
  · norm_num [constrain, far_readings, ZOMBIE_MAX_SPEED]
  · norm_num [far_readings]
  · norm_num [constrain, far_readings, ZOMBIE_MAX_SPEED]
  · norm_num [far_readings]

/-- C12 fails on the code: in phase GPS with the ranging source available, the cycle with
satellite distance 12000 mm returns and leaves the phase GPS, but the next cycle, with
satellite distance 8000 mm (<= 10000), reaches `set_current_state(ZOMBIE_MODE_POZYX_STATE)`
and `run` returns for no recursion budget, so the phase never becomes POZYX. -/
theorem run_gps_transition_never_returns (fuel : Nat) (vel0 : Velocity) :
    gps_zombie_ranging.current_state_id_ = ZOMBIE_MODE_GPS_STATE
    ∧ gps_zombie_ranging.pozyx_ok_ = true
    ∧ run fuel gps_zombie_ranging far_readings vel0
        = some ({ linear := 0.25, angular := 0.3 }, gps_zombie_ranging)
    ∧ near_readings.gps_dist_to_target ≤ GPS_DIST_THRESHOLD_MIN
    ∧ run fuel gps_zombie_ranging near_readings vel0 = none
    ∧ run_cycles fuel vel0 gps_zombie_ranging [⟨true, far_readings⟩, ⟨true, near_readings⟩]
        = none := by
  have hnear : run_requests_phase_change gps_zombie_ranging near_readings = true := by
    norm_num [run_requests_phase_change, gps_zombie_ranging, near_readings,
      GPS_DIST_THRESHOLD_MIN, ZOMBIE_MODE_GPS_STATE, ZOMBIE_MODE_DISABLED_STATE]
  refine ⟨rfl, rfl, ?_, ?_, run_none_of_requests _ _ _ _ hnear, ?_⟩
  · unfold run
    rw [if_neg (by decide), if_pos (show gps_zombie_ranging.current_state_id_
      = ZOMBIE_MODE_GPS_STATE from rfl), case_GPS_eq]
    norm_num [case_IR, gps_zombie_ranging, far_readings, constrain, PI, ZOMBIE_DOCKING_SPEED,
      GPS_DIST_THRESHOLD_MIN, RADAR_DIST_THRESHOLD_MIN, INFRARED_DIST_THRESHOLD_MAX]
  · norm_num [near_readings, GPS_DIST_THRESHOLD_MIN]
  · rw [run_cycles_eq, if_neg]
    intro h
    have h2 := h ⟨true, near_readings⟩ (by simp)
    rw [show ({ gps_zombie_ranging with pozyx_ok_ := true } : ZombieController)
        = gps_zombie_ranging from rfl] at h2
    rw [hnear] at h2
    cases h2

/-- C13 fails on the code: for every navigator, every requested phase and every recursion
budget, `set_current_state` does not return (its body calls itself before `return true` and
never assigns the phase), so no call returns true with the phase set; and `stop`, run with
`set_current_state` as the setter it calls, does not return either, from HOMED as from any
other phase. -/
theorem set_current_state_does_not_terminate (fuel : Nat) (z : ZombieController)
    (new_state_id : Nat) :
    set_current_state fuel z new_state_id = none
    ∧ (¬ ∃ z1, set_current_state fuel z new_state_id = some (true, z1))
    ∧ stop (set_current_state fuel) z = none
    ∧ stop (set_current_state fuel) homed_zombie = none := by
  have h : ∀ (y : ZombieController) (n : Nat), set_current_state fuel y n = none := by
    intro y n
    induction fuel with
    | zero => rfl
    | succ k ih => simp [set_current_state, ih]
  refine ⟨h z _, ?_, ?_, ?_⟩
  · rintro ⟨z1, hz1⟩
    rw [h] at hz1
    cases hz1
  · simp [stop, h]
  · simp [stop, h]

/-- C16 fails on the code: whatever status `Pozyx.doPositioning` returned, `pozyx_ok_` is
true after `get_poxyx_position`, because `pozyx_ok_ = true` follows the error branch
unconditionally; in particular with status 0 (POZYX_FAILURE) against POZYX_SUCCESS = 1. -/
theorem get_poxyx_position_always_ok (z : ZombieController) (POZYX_SUCCESS status : Int)
    (position : coordinates_t) :
    (get_poxyx_position z POZYX_SUCCESS status position).2.pozyx_ok_ = true
    ∧ (get_poxyx_position z POZYX_SUCCESS status position).1 = position
    ∧ ¬ (0 : Int) = 1
    ∧ (get_poxyx_position fresh_zombie 1 0 ⟨0, 0, 0⟩).2.pozyx_ok_ = true := by
  refine ⟨?_, rfl, by decide, ?_⟩
  · unfold get_poxyx_position
    simp
  · unfold get_poxyx_position
    simp

/-! ## Supervisory controller, continued (C14, C15) -/

/-- C14 fails on the code: in BLUETOOTH_TELEOP_STATE, with the switch engaged, the check made
10 ms after the stamp (failsafe evaluation true) and a requested linear velocity of 0.3, the
call sends target velocity 0 to the left and to the right motor, not 0.3; the mode is
unchanged. For every controller, clock reading, switch reading and request, every target
velocity `process_velocity_command` sends is 0. -/
theorem teleop_ignores_requested_velocity (c : AlexbotController) (t_entry t_check : Nat)
    (failsafe_pin : Bool) (cmd_x_velocity cmd_theta : ℚ) :
    teleop_controller.current_state_id = BLUETOOTH_TELEOP_STATE
    ∧ (process_velocity_command teleop_controller 1000 1010 true 0.3 0).failsafe.returned = true
    ∧ (process_velocity_command teleop_controller 1000 1010 true 0.3 0).motor_commands
        = [{ motor_id := LEFT_MOTOR_ID, target_velocity := 0 },
           { motor_id := RIGHT_MOTOR_ID, target_velocity := 0 }]
    ∧ get_current_state_ID (process_velocity_command teleop_controller 1000 1010 true 0.3
        0).controller = BLUETOOTH_TELEOP_STATE
    ∧ ∀ m ∈ (process_velocity_command c t_entry t_check failsafe_pin cmd_x_velocity
              cmd_theta).motor_commands, m.target_velocity = 0 := by
  have hret : (process_velocity_command teleop_controller 1000 1010 true 0.3
      0).failsafe.returned = true := by
    rw [process_velocity_command_failsafe, check_failsafes_returned]
    simp only [ulong_sub_stamp]
    simp [WATCHDOG_TIMEOUT]
  have hmode : (process_velocity_command teleop_controller 1000 1010 true 0.3
      0).controller.current_state_id = BLUETOOTH_TELEOP_STATE := by
    rw [process_velocity_command_mode, hret]
    rfl
  refine ⟨rfl, hret, ?_, hmode, process_velocity_command_commands _ _ _ _ _ _⟩
  rw [process_velocity_command_controller] at hmode
  unfold process_velocity_command
  simp only
  rw [hmode, if_neg (by decide), if_pos rfl]
  norm_num

/-- C15: for every mode `m` (a `uint8_t`), `set_current_state_ID(m)` called while the current
mode is already `m` returns true, leaves the mode equal to `m`, leaves the docking phase
unchanged, and in fact leaves the whole controller as it was. -/
theorem set_current_state_ID_same_mode (c : AlexbotController) (m : Nat) (hm : m < 256)
    (hcur : c.current_state_id = (m : Int)) :
    (set_current_state_ID c m).1 = true
    ∧ get_current_state_ID (set_current_state_ID c m).2 = (m : Int)
    ∧ (set_current_state_ID c m).2.zombie_controller.current_state_id_
        = c.zombie_controller.current_state_id_
    ∧ (set_current_state_ID c m).2 = c := by
  have hid : ((m % 256 : Nat) : Int) = (m : Int) := by
    rw [Nat.mod_eq_of_lt hm]
  have heq : (set_current_state_ID c m).2 = c := by
    rw [set_current_state_ID_eq, hid, ← hcur]
  refine ⟨?_, ?_, ?_, heq⟩
  · rw [set_current_state_ID_eq]
  · rw [heq, get_current_state_ID, hcur]
  · rw [heq]

/-- Witness for C15: ZOMBIE_STATE (3) requested while in ZOMBIE_STATE with phase IR. -/
theorem set_current_state_ID_same_mode_witness :
    (set_current_state_ID docking_controller 3).1 = true
    ∧ get_current_state_ID (set_current_state_ID docking_controller 3).2 = ((3 : Nat) : Int)
    ∧ (set_current_state_ID docking_controller 3).2.zombie_controller.current_state_id_
        = docking_controller.zombie_controller.current_state_id_
    ∧ (set_current_state_ID docking_controller 3).2 = docking_controller :=
  set_current_state_ID_same_mode docking_controller 3 (by decide) rfl

/-! ## The `linda_main` firmware (C17 - C19) -/

/-- C17 fails on the code: `process_command` evaluates no failsafe (the `checkFailsafes()`
call is commented out), so for every starting state and every input the state after the
call is the state before it. With the car in AI_READY_STATE, the RC failsafe reading 0
(< 0.5) and the call made 300 ms after the last stamp, `checkFailsafes` would return false,
yet `process_command(1.0, 0)` executes the AI_READY branch (x_velocity = 1, brake target 0,
throttle servo 2) and the state after the call is AI_READY_STATE, not HALT_STATE. -/
theorem process_command_skips_failsafes (s : LindaMain.Linda) (now : Nat)
    (rc : LindaMain.RcReads) (cmd_x_velocity cmd_theta : ℚ) :
    (LindaMain.Linda.process_command s now rc cmd_x_velocity cmd_theta).1.currentStateID
      = s.currentStateID
    ∧ (LindaMain.Linda.checkFailsafes LindaMain.driving_car 300 0 0).returned = false
    ∧ (LindaMain.Linda.checkFailsafes LindaMain.driving_car 300 0 0).state.currentStateID
        = LindaMain.HALT_STATE
    ∧ LindaMain.Linda.process_command LindaMain.driving_car 300 LindaMain.quiet_rc 1 0
        = ({ LindaMain.driving_car with lastCommandTimestamp := 300, x_velocity := 1, theta := 0 },
           [LindaMain.Effect.set_target_position LindaMain.Actuator.steer_motor 0,
            LindaMain.Effect.set_target_position LindaMain.Actuator.brake_motor 0,
            LindaMain.Effect.servo_write 2])
    ∧ (LindaMain.Linda.process_command LindaMain.driving_car 300 LindaMain.quiet_rc 1
          0).1.currentStateID = LindaMain.AI_READY_STATE
    ∧ ¬ (LindaMain.Linda.process_command LindaMain.driving_car 300 LindaMain.quiet_rc 1
          0).1.currentStateID = LindaMain.HALT_STATE := by
  have hgen : ∀ (s : LindaMain.Linda) (now : Nat) (rc : LindaMain.RcReads) (x th : ℚ),
      (LindaMain.Linda.process_command s now rc x th).1.currentStateID = s.currentStateID := by
    intro s now rc x th
    unfold LindaMain.Linda.process_command
    simp only
    split_ifs <;>
      first
        | rfl
        | exact LindaMain.Linda.stopEngine_state _
        | exact LindaMain.Linda.rc_teleop_drive_state _ _ _
  have hstate : (LindaMain.Linda.process_command LindaMain.driving_car 300 LindaMain.quiet_rc 1
      0).1.currentStateID = LindaMain.AI_READY_STATE := by
    rw [hgen]
    rfl
  refine ⟨hgen s now rc cmd_x_velocity cmd_theta, ?_, ?_, ?_, hstate, ?_⟩
  · norm_num [LindaMain.Linda.checkFailsafes]
  · norm_num [LindaMain.Linda.checkFailsafes, LindaMain.Linda.set_current_state_ID,
      LindaMain.HALT_STATE, LindaMain.IGNITION_STATE, LindaMain.ENGINE_START_STATE]
  · have h300 : to_long (millis 300) = 300 := by
      simp [to_long, millis]
    unfold LindaMain.Linda.process_command
    simp only [h300]
    norm_num [LindaMain.driving_car, LindaMain.HALT_STATE, LindaMain.RC_TELEOP_STATE,
      LindaMain.IGNITION_STATE, LindaMain.ENGINE_START_STATE, LindaMain.AI_READY_STATE,
      LindaMain.Linda.calculate_brake_pos, LindaMain.Linda.calculate_throttle_pos,
      LindaMain.Linda.calculate_steer_pos, LindaMain.BRAKE_SENSITIVITY,
      LindaMain.THROTTLE_SENSITIVITY, LindaMain.STEERING_SENSITIVITY,
      LindaMain.BRAKE_FULLY_ENGAGED_POSITION, LindaMain.BRAKE_NOT_ENGAGED_POSITION,
      arduino_abs, to_int, to_long, millis]
  · rw [hstate]
    decide

/-- C18: for every target position, feedback reading and gains, with
motor_min_pos <= motor_max_pos and motor_max_power >= 0, `SetTargetPosition` works on the
target clamped to [motor_min_pos, motor_max_pos]; its output is
int(Kp * (feedback - clamped target)) clamped to [-motor_max_power, motor_max_power]; it
calls the motor interface (once, with that output) exactly when |output| > 10; and every
power it sends has magnitude at most motor_max_power. -/
theorem SetTargetPosition_bounded (m : MotorController) (target_pos : ℚ) (feedback : Int)
    (hrange : m.motor_min_pos ≤ m.motor_max_pos) (hpower : 0 ≤ m.motor_max_power) :
    (m.SetTargetPosition target_pos feedback).target_pos
        = max (m.motor_min_pos : ℚ) (min target_pos (m.motor_max_pos : ℚ))
    ∧ (m.SetTargetPosition target_pos feedback).output
        = ((max (-m.motor_max_power)
              (min (to_int (m.Kp * ((feedback : ℚ)
                      - (m.SetTargetPosition target_pos feedback).target_pos)))
                m.motor_max_power) : Int) : ℚ)
    ∧ ((m.SetTargetPosition target_pos feedback).motor_commands ≠ []
        ↔ |(m.SetTargetPosition target_pos feedback).output| > 10)
    ∧ (m.SetTargetPosition target_pos feedback).motor_commands
        = (if |(m.SetTargetPosition target_pos feedback).output| > 10 then
            [{ motor_id := m.motor_id
               power := to_int (m.SetTargetPosition target_pos feedback).output }]
           else [])
    ∧ ∀ cmd ∈ (m.SetTargetPosition target_pos feedback).motor_commands,
        |cmd.power| ≤ m.motor_max_power := by
  have hrq : (m.motor_min_pos : ℚ) ≤ (m.motor_max_pos : ℚ) := by exact_mod_cast hrange
  have htarget : (m.SetTargetPosition target_pos feedback).target_pos
      = max (m.motor_min_pos : ℚ) (min target_pos (m.motor_max_pos : ℚ)) := by
    unfold MotorController.SetTargetPosition
    simp only
    split_ifs with h1 h2
    · rw [min_eq_left (by linarith), max_eq_left (le_of_lt h1)]
    · rw [min_eq_right (le_of_lt h2), max_eq_right hrq]
    · rw [min_eq_left (not_lt.mp h2), max_eq_right (not_lt.mp h1)]
  have houtput : (m.SetTargetPosition target_pos feedback).output
      = ((max (-m.motor_max_power)
            (min (to_int (m.Kp * ((feedback : ℚ)
                    - (m.SetTargetPosition target_pos feedback).target_pos)))
              m.motor_max_power) : Int) : ℚ) := by
    unfold MotorController.SetTargetPosition
    simp only [mul_zero, add_zero, neg_one_mul]
    norm_num only [mul_zero, add_zero]
    split_ifs with h1 h2 <;> norm_cast at * <;> omega
  have hcmds : (m.SetTargetPosition target_pos feedback).motor_commands
      = (if |(m.SetTargetPosition target_pos feedback).output| > 10 then
          [{ motor_id := m.motor_id
             power := to_int (m.SetTargetPosition target_pos feedback).output }]
         else []) := by
    rw [← arduino_abs_eq_abs]
    rfl
  refine ⟨htarget, houtput, ?_, hcmds, ?_⟩
  · rw [hcmds]
    split_ifs with h
    · simp [h]
    · simp [h]
  · intro cmd hcmd
    rw [hcmds] at hcmd
    split_ifs at hcmd with h
    · rw [List.mem_singleton] at hcmd
      subst hcmd
      simp only
      rw [houtput, to_int_intCast, abs_le]
      constructor <;> omega
    · cases hcmd

/-- Witness for C18: range 100 .. 1023, power limit 60, Kp = 0.5; target 2000 (clamped to
1023) with feedback 500. -/
theorem SetTargetPosition_bounded_witness :
    (sample_motor.SetTargetPosition 2000 500).target_pos
        = max (sample_motor.motor_min_pos : ℚ) (min 2000 (sample_motor.motor_max_pos : ℚ))
    ∧ (sample_motor.SetTargetPosition 2000 500).output
        = ((max (-sample_motor.motor_max_power)
              (min (to_int (sample_motor.Kp * (((500 : Int) : ℚ)
                      - (sample_motor.SetTargetPosition 2000 500).target_pos)))
                sample_motor.motor_max_power) : Int) : ℚ)
    ∧ ((sample_motor.SetTargetPosition 2000 500).motor_commands ≠ []
        ↔ |(sample_motor.SetTargetPosition 2000 500).output| > 10)
    ∧ (sample_motor.SetTargetPosition 2000 500).motor_commands
        = (if |(sample_motor.SetTargetPosition 2000 500).output| > 10 then
            [{ motor_id := sample_motor.motor_id
               power := to_int (sample_motor.SetTargetPosition 2000 500).output }]
           else [])
    ∧ ∀ cmd ∈ (sample_motor.SetTargetPosition 2000 500).motor_commands,
        |cmd.power| ≤ sample_motor.motor_max_power :=
  SetTargetPosition_bounded sample_motor 2000 500 (by decide) (by decide)

/-- C19: for every duty reading of the gear switch, `rc_read_gear_pos` returns
REVERSE_GEAR_POSITION (300) when duty < 1.0 and DRIVE_GEAR_POSITION (700) otherwise, and
never PARK_GEAR_POSITION (100): the test against RC_DUTY_THRESH_PARK (0.6) comes after the
test against RC_DUTY_THRESH_REVERSE (1.0). -/
theorem rc_read_gear_pos_never_park (duty : ℚ) :
    LindaMain.Linda.rc_read_gear_pos duty
        = (if duty < 1.0 then LindaMain.REVERSE_GEAR_POSITION
           else LindaMain.DRIVE_GEAR_POSITION)
    ∧ ¬ LindaMain.Linda.rc_read_gear_pos duty = LindaMain.PARK_GEAR_POSITION
    ∧ LindaMain.REVERSE_GEAR_POSITION = 300
    ∧ LindaMain.DRIVE_GEAR_POSITION = 700
    ∧ LindaMain.PARK_GEAR_POSITION = 100
    ∧ LindaMain.RC_DUTY_THRESH_REVERSE = 1.0
    ∧ LindaMain.RC_DUTY_THRESH_PARK = 0.6 := by
  have hform : LindaMain.Linda.rc_read_gear_pos duty
      = (if duty < 1.0 then LindaMain.REVERSE_GEAR_POSITION
         else LindaMain.DRIVE_GEAR_POSITION) := by
    unfold LindaMain.Linda.rc_read_gear_pos LindaMain.RC_DUTY_THRESH_REVERSE
      LindaMain.RC_DUTY_THRESH_PARK
    by_cases h : duty < 1.0
    · rw [if_pos h, if_pos h]
    · rw [if_neg h, if_neg h, if_neg]
      intro h2
      apply h
      norm_num at h2 ⊢
      linarith
  refine ⟨hform, ?_, rfl, rfl, rfl, rfl, rfl⟩
  rw [hform]
  split_ifs <;> decide

end Linda
